import Mathlib

/-!
Verification of the gptcli repository: a shallow embedding of the
conversation / configuration / statistics layer of `gptcli.py` and of the
send-message and delete-chat flows of the terminal UI (`ui/app.py`,
`ui/widgets.py`, `ui/widgets/chat_list_panel.py`), with theorems settling
the behavioural claims made by the specification.

Python data is modelled as follows: JSON values are an inductive `Json`
(numbers as rationals), Python dicts are insertion-ordered association
lists with string keys, machine-independent integers are `Int`, floats are
idealised as rationals, fallible code returns `Except`, and the file system
is a total map from paths to a `FileContent` that distinguishes a missing
file, an unparseable file, and a parsed JSON document.
-/

namespace GptCli

/-- JSON values as produced and consumed by Python's `json` module. -/
inductive Json where
  | str (s : String)
  | num (q : ℚ)
  | bool (b : Bool)
  | null
  | arr (elems : List Json)
  | obj (entries : List (String × Json))

/-- A Python dict with string keys: an insertion-ordered association list. -/
abbrev Dict := List (String × Json)

/-- Python `d.get(k)` (and the `k in d` membership test): the value stored
under the first occurrence of key `k`, if any. -/
def dictGet {α : Type} (d : List (String × α)) (k : String) : Option α :=
  match d with
  | [] => none
  | (k', v) :: rest => if k' = k then some v else dictGet rest k

/-- Python `d[k] = v`: overwrite the value in place when `k` is present
(dict keys are unique, so the first occurrence is the only one), append a
new entry otherwise. -/
def dictAssign {α : Type} (d : List (String × α)) (k : String) (v : α) :
    List (String × α) :=
  match d with
  | [] => [(k, v)]
  | (k', v') :: rest =>
      if k' = k then (k, v) :: rest else (k', v') :: dictAssign rest k v

/-- Python `base.update(other)`: values of keys already in `base` are
overwritten in place, keys only in `other` are appended in order. -/
def dictUpdate {α : Type} (base other : List (String × α)) :
    List (String × α) :=
  base.map (fun kv =>
      match dictGet other kv.1 with
      | some v => (kv.1, v)
      | none => kv)
    ++ other.filter (fun kv => (dictGet base kv.1).isNone)

theorem dictGet_append {α : Type} (xs ys : List (String × α)) (k : String) :
    dictGet (xs ++ ys) k =
      match dictGet xs k with
      | some v => some v
      | none => dictGet ys k := by
  induction xs with
  | nil => simp [dictGet]
  | cons kv rest ih =>
      obtain ⟨k', v⟩ := kv
      by_cases h : k' = k <;> simp [dictGet, h, ih]

theorem dictGet_map_update {α : Type} (base other : List (String × α))
    (k : String) :
    dictGet (base.map (fun kv =>
        match dictGet other kv.1 with
        | some v => (kv.1, v)
        | none => kv)) k =
      match dictGet base k with
      | none => none
      | some v0 =>
          match dictGet other k with
          | some v => some v
          | none => some v0 := by
  induction base with
  | nil => simp [dictGet]
  | cons kv rest ih =>
      obtain ⟨k', v'⟩ := kv
      by_cases h : k' = k
      · subst h
        cases hov : dictGet other k' <;> simp [dictGet, hov]
      · cases hov : dictGet other k' <;> simp [dictGet, hov, h, ih]

theorem dictGet_filter {α : Type} (l : List (String × α))
    (p : String × α → Bool) (k : String) (hp : ∀ v, p (k, v) = true) :
    dictGet (l.filter p) k = dictGet l k := by
  induction l with
  | nil => simp [dictGet]
  | cons kv rest ih =>
      obtain ⟨k', v'⟩ := kv
      by_cases h : k' = k
      · subst h
        simp [List.filter, hp v', dictGet, ih]
      · cases hpk : p (k', v') <;> simp [List.filter, hpk, dictGet, h, ih]

theorem dictGet_dictUpdate {α : Type} (base other : List (String × α))
    (k : String) :
    dictGet (dictUpdate base other) k =
      match dictGet other k with
      | some v => some v
      | none => dictGet base k := by
  unfold dictUpdate
  rw [dictGet_append, dictGet_map_update]
  cases hb : dictGet base k with
  | some v0 => cases ho : dictGet other k <;> simp
  | none =>
      have hfil := dictGet_filter other
        (fun kv => (dictGet base kv.1).isNone) k (by simp [hb])
      rw [hfil]
      cases ho : dictGet other k <;> simp

theorem dictGet_dictAssign_self {α : Type} (d : List (String × α))
    (k : String) (v : α) : dictGet (dictAssign d k v) k = some v := by
  induction d with
  | nil => simp [dictAssign, dictGet]
  | cons kv rest ih =>
      obtain ⟨k', v'⟩ := kv
      by_cases hk : k' = k
      · simp [dictAssign, dictGet, hk]
      · simp [dictAssign, dictGet, hk, ih]

theorem dictGet_dictAssign_ne {α : Type} (d : List (String × α))
    (k k2 : String) (v : α) (hne : k ≠ k2) :
    dictGet (dictAssign d k v) k2 = dictGet d k2 := by
  induction d with
  | nil => simp [dictAssign, dictGet, hne]
  | cons kv rest ih =>
      obtain ⟨k', v'⟩ := kv
      by_cases hk : k' = k
      · subst hk
        simp [dictAssign, dictGet, hne]
      · simp [dictAssign, dictGet, hk, ih]

/-- Content of a file as seen by the JSON-loading helpers: the file can be
missing, unreadable-or-unparseable (an `IOError` or `json.JSONDecodeError`
on load), or a parsed JSON document. -/
inductive FileContent where
  | missing
  | malformed
  | json (j : Json)

/-- The file system: every path holds a `FileContent`. -/
abbrev FS := String → FileContent

/-- Path returned by `gptcli.get_conversation_path`:
`conversations/<name>.json`. -/
def convPath (chat_name : String) : String :=
  "conversations/" ++ chat_name ++ ".json"

/-- Path returned by `gptcli.get_chat_config_path`:
`conversations/<name>.config.json`. -/
def chatConfigPath (chat_name : String) : String :=
  "conversations/" ++ chat_name ++ ".config.json"

/-- Path returned by `gptcli.get_stats_path`:
`conversations/statistics/<name>.json`. -/
def statsPath (chat_name : String) : String :=
  "conversations/statistics/" ++ chat_name ++ ".json"

/-- Path returned by `gptcli.get_system_prompt_path`:
`conversations/system_prompts/<name>.json`. -/
def systemPromptPath (chat_name : String) : String :=
  "conversations/system_prompts/" ++ chat_name ++ ".json"

/-- gptcli.save_conversation: writes the message list as a JSON array to the
conversation file and changes nothing else. -/
def save_conversation (fs : FS) (chat_name : String) (messages : List Json) :
    FS :=
  fun p =>
    if p = convPath chat_name then FileContent.json (Json.arr messages)
    else fs p

/-- gptcli.load_conversation: the message list stored in the conversation
file; a missing file, an `IOError`/`JSONDecodeError`, a legacy JSON string,
or any other non-list JSON document all yield the empty list. -/
def load_conversation (fs : FS) (chat_name : String) : List Json :=
  match fs (convPath chat_name) with
  | FileContent.missing => []
  | FileContent.malformed => []
  | FileContent.json (Json.str _) => []
  | FileContent.json (Json.arr elems) => elems
  | FileContent.json _ => []

/-- gptcli.load_chat_config: the per-chat configuration dict; a missing
file, an `IOError`/`JSONDecodeError`, or a parsed non-object document all
yield the empty dict. -/
def load_chat_config (fs : FS) (chat_name : String) : Dict :=
  match fs (chatConfigPath chat_name) with
  | FileContent.json (Json.obj entries) => entries
  | _ => []

/-- The only Python exception relevant to these claims: the
`AttributeError` raised by attribute access on an object lacking the
attribute (for example `data.get` when `data` is not a dict, or
`gptcli.load_system_prompt` when the module has no such attribute). -/
inductive PyExc where
  | attributeError
deriving DecidableEq

/-- The all-zero statistics record that `gptcli.load_statistics` builds
when the statistics file is missing or corrupted. -/
def zeroStats : Dict :=
  [("total_input_tokens", Json.num 0),
   ("total_output_tokens", Json.num 0),
   ("total_tokens", Json.num 0),
   ("total_cost", Json.num 0),
   ("total_time", Json.num 0),
   ("request_count", Json.num 0)]

/-- The record `gptcli.load_statistics` builds from a parsed JSON object:
each required field via `data.get(field, 0)` / `data.get(field, 0.0)`. -/
def statsFromData (d : Dict) : Dict :=
  [("total_input_tokens", (dictGet d "total_input_tokens").getD (Json.num 0)),
   ("total_output_tokens", (dictGet d "total_output_tokens").getD (Json.num 0)),
   ("total_tokens", (dictGet d "total_tokens").getD (Json.num 0)),
   ("total_cost", (dictGet d "total_cost").getD (Json.num 0)),
   ("total_time", (dictGet d "total_time").getD (Json.num 0)),
   ("request_count", (dictGet d "request_count").getD (Json.num 0))]

/-- gptcli.load_statistics: default record when the file is missing or when
open/`json.load` fails (`JSONDecodeError`/`IOError` are caught); the field
extraction via `data.get` when the document is an object; but when the
document is valid JSON that is not an object, `data.get` raises an
`AttributeError` that no handler catches. -/
def load_statistics (fs : FS) (chat_name : String) : Except PyExc Dict :=
  match fs (statsPath chat_name) with
  | FileContent.missing => Except.ok zeroStats
  | FileContent.malformed => Except.ok zeroStats
  | FileContent.json (Json.obj entries) => Except.ok (statsFromData entries)
  | FileContent.json _ => Except.error PyExc.attributeError

/-- A well-typed statistics record, the shape `gptcli.update_statistics`
reads and writes (integer token and request counters, float cost and
time). -/
structure Stats where
  total_input_tokens : Int
  total_output_tokens : Int
  total_tokens : Int
  total_cost : ℚ
  total_time : ℚ
  request_count : Int
deriving DecidableEq

/-- The additions `gptcli.update_statistics` performs on the loaded record:
each counter grows by the corresponding argument, cost only when a cost is
given, the request count by exactly one. -/
def applyStatsUpdate (stats : Stats)
    (input_tokens output_tokens total_tokens : Int) (cost : Option ℚ)
    (elapsed_time : ℚ) : Stats :=
  { total_input_tokens := stats.total_input_tokens + input_tokens
    total_output_tokens := stats.total_output_tokens + output_tokens
    total_tokens := stats.total_tokens + total_tokens
    total_cost :=
      match cost with
      | some c => stats.total_cost + c
      | none => stats.total_cost
    total_time := stats.total_time + elapsed_time
    request_count := stats.request_count + 1 }

/-- gptcli.update_statistics, with the `load_statistics`/`save_statistics`
file round-trip abstracted as a per-chat store of well-typed records: an
empty chat name returns immediately (temporary conversation, nothing
saved); otherwise the chat's record is loaded, incremented and saved
back, and no other chat's record is touched. -/
def update_statistics (chat_name : String) (store : String → Stats)
    (input_tokens output_tokens total_tokens : Int) (cost : Option ℚ)
    (elapsed_time : ℚ) : String → Stats :=
  if chat_name = "" then store
  else fun n =>
    if n = chat_name then
      applyStatsUpdate (store chat_name) input_tokens output_tokens
        total_tokens cost elapsed_time
    else store n

/-- A pricing-table entry: the per-million-token "input" and "output"
prices of one model. -/
structure PriceEntry where
  input : ℚ
  output : ℚ
deriving DecidableEq

/-- gptcli.calculate_cost: `None` when the model has no pricing entry,
otherwise input and output token counts each scaled by the entry's
per-million price. `MODEL_PRICING` is the module-level table taken from the
merged configuration, passed explicitly here. -/
def calculate_cost (MODEL_PRICING : List (String × PriceEntry))
    (model : String) (input_tokens output_tokens : Int) : Option ℚ :=
  match dictGet MODEL_PRICING model with
  | none => none
  | some pricing =>
      some (((input_tokens : ℚ) / 1000000) * pricing.input
        + ((output_tokens : ℚ) / 1000000) * pricing.output)

/-- The built-in pricing table of `gptcli.DEFAULT_CONFIG`, as JSON. -/
def defaultPricing : Dict :=
  [("gpt-5.1", Json.obj [("input", Json.num 2.5), ("output", Json.num 10)])]

/-- The built-in system-prompt presets of `gptcli.DEFAULT_CONFIG`. -/
def defaultSystemPrompts : Dict :=
  [("default", Json.str "You are a helpful assistant."),
   ("python-expert", Json.str
     "You are an expert Python programmer. Provide technical, concise answers with code examples."),
   ("friendly-mentor", Json.str
     "You are a friendly mentor. Use simple language, give practical advice, and be encouraging."),
   ("data-analyst", Json.str
     "You are a data analysis assistant. Always format responses as structured reports with sections.")]

/-- gptcli.DEFAULT_CONFIG: the built-in configuration defaults. -/
def DEFAULT_CONFIG : Dict :=
  [("default_model", Json.str "gpt-5.1"),
   ("user_name", Json.str "You"),
   ("user_color", Json.str "cyan"),
   ("assistant_color", Json.str "green"),
   ("pricing", Json.obj defaultPricing),
   ("system_prompts", Json.obj defaultSystemPrompts)]

/-- One merge step of `gptcli.load_config`:
`if isinstance(data.get(key), str): config[key] = data[key]`. -/
def updateStrField (config data : Dict) (key : String) : Dict :=
  match dictGet data key with
  | some (Json.str s) => dictAssign config key (Json.str s)
  | _ => config

/-- One merge step of `gptcli.load_config`:
`if isinstance(data.get(key), dict): config[key].update(data[key])`. The
inner fallback is unreachable because the built-in defaults hold objects
under both merged keys. -/
def updateDictField (config data : Dict) (key : String) : Dict :=
  match dictGet data key with
  | some (Json.obj entries) =>
      match dictGet config key with
      | some (Json.obj base) =>
          dictAssign config key (Json.obj (dictUpdate base entries))
      | _ => config
  | _ => config

/-- gptcli.load_config: a failed open or parse of the config file falls
back to a copy of the defaults; a parsed non-object document leaves the
default copy untouched; a parsed object is merged over the defaults field
by field in source order. (`ensure_config_file` runs first and writes the
defaults when the file is absent, which also loads back as the defaults.) -/
def load_config (file : FileContent) : Dict :=
  match file with
  | FileContent.json (Json.obj d) =>
      let config := DEFAULT_CONFIG
      let config := updateDictField config d "pricing"
      let config := updateStrField config d "default_model"
      let config := updateStrField config d "user_name"
      let config := updateStrField config d "user_color"
      let config := updateStrField config d "assistant_color"
      let config := updateDictField config d "system_prompts"
      config
  | FileContent.json _ => DEFAULT_CONFIG
  | _ => DEFAULT_CONFIG

/-- A message record: a Python dict such as `{"role": ..., "content": ...}`
with possible extra keys like "model" or "timestamp". -/
abbrev Msg := Dict

/-- The user message appended by both send flows:
`{"role": "user", "content": user_input}`. -/
def userMsg (user_input : String) : Msg :=
  [("role", Json.str "user"), ("content", Json.str user_input)]

/-- The assistant message appended by the readline loop of `gptcli.main`:
`{"role": "assistant", "content": full_response}`. -/
def assistantMsgCli (response : String) : Msg :=
  [("role", Json.str "assistant"), ("content", Json.str response)]

/-- The assistant message appended by the UI worker thread:
`{"role": "assistant", "content": ..., "model": model}`. -/
def assistantMsgUi (response model : String) : Msg :=
  [("role", Json.str "assistant"), ("content", Json.str response),
   ("model", Json.str model)]

/-- The history window both send flows use:
`messages[-10:] if len(messages) > 10 else messages.copy()`. -/
def windowLast10 (messages : List Msg) : List Msg :=
  if messages.length > 10 then messages.drop (messages.length - 10)
  else messages

/-- The per-message key filter of both send flows: the dict comprehension
dropping the "model" and "timestamp" keys. -/
def stripMsg (m : Msg) : Msg :=
  m.filter (fun kv => (kv.1 != "model") && (kv.1 != "timestamp"))

/-- Whether a message's "role" entry is the string "system";
`api_messages[0].get("role") != "system"` is the negation of this (a
missing or non-string role also compares unequal to "system"). -/
def isSystemRole (m : Msg) : Bool :=
  match dictGet m "role" with
  | some (Json.str s) => s == "system"
  | _ => false

/-- The system message both send flows prepend:
`{"role": "system", "content": current_system_prompt}`. -/
def systemMsg (prompt : String) : Msg :=
  [("role", Json.str "system"), ("content", Json.str prompt)]

/-- Payload construction shared by `gptcli.main` (lines 521-533) and
`ui/app.py:run_in_thread` (lines 112-122): window the conversation to the
last ten messages, strip the "model" and "timestamp" keys from each, then,
when a truthy (non-empty) system prompt is set, prepend one system message
unless the first windowed entry already has role "system", in which case
overwrite that entry's content with the prompt. -/
def buildApiMessages (messages : List Msg)
    (current_system_prompt : Option String) : List Msg :=
  let api := (windowLast10 messages).map stripMsg
  match current_system_prompt with
  | none => api
  | some p =>
      if p = "" then api
      else
        match api with
        | [] => [systemMsg p]
        | m :: rest =>
            if isSystemRole m then
              dictAssign m "content" (Json.str p) :: rest
            else systemMsg p :: m :: rest

/-- Outcome of the hosted-API interaction in one turn of the `gptcli.main`
loop: the streaming call succeeds, raises `APIError`, or raises
`TypeError`/`AttributeError`, in which case a non-streaming fallback call
is made that itself succeeds or raises `APIError`. -/
inductive StreamOutcome where
  | ok (response : String)
  | apiError (message : String)
  | fallback (result : Except String String)

/-- One send turn of the readline loop in `gptcli.main` (lines 519-749),
restricted to the in-memory transcript: the user message is appended; on
`APIError` from either call site the handler prints the error and pops the
appended user message (`messages.pop()`) before `continue`; on success the
assistant reply is appended. -/
def gptcliTurn (messages : List Msg) (user_input : String)
    (outcome : StreamOutcome) : List Msg :=
  let msgs := messages ++ [userMsg user_input]
  match outcome with
  | StreamOutcome.ok response => msgs ++ [assistantMsgCli response]
  | StreamOutcome.apiError _ => msgs.dropLast
  | StreamOutcome.fallback (Except.error _) => msgs.dropLast
  | StreamOutcome.fallback (Except.ok response) =>
      msgs ++ [assistantMsgCli response]

/-- Every attribute of the module `gptcli`: its imported names, its
module-level globals, and its seventeen function definitions, read off the
top level of `src/gptcli.py`. -/
def gptcliModuleAttrs : List String :=
  ["argparse", "readline", "json", "os", "time", "deepcopy", "OpenAI",
   "APIError", "Console", "Markdown", "Progress", "SpinnerColumn",
   "TextColumn", "TimeElapsedColumn", "Live", "client", "console",
   "USER_COLOR", "ASSISTANT_COLOR", "INFO_COLOR", "RESET_COLOR",
   "CONVERSATIONS_DIR", "CONFIG_PATH", "DEFAULT_CONFIG",
   "ensure_config_file", "load_config", "CONFIG", "DEFAULT_MODEL",
   "USER_NAME", "MODEL_PRICING", "SYSTEM_PROMPTS", "calculate_cost",
   "format_statistics", "get_conversation_path", "get_stats_path",
   "get_chat_config_path", "get_system_prompt_path", "save_system_prompt",
   "load_chat_config", "save_chat_config", "load_statistics",
   "save_statistics", "update_statistics", "load_conversation",
   "save_conversation", "main"]

/-- The attribute access `gptcli.load_system_prompt` performed by
`ui/app.py:run_in_thread` and by
`ui/widgets/chat_list_panel.py:action_edit_chat`: Python raises
`AttributeError` exactly when the module has no such attribute. The `ok`
arm (the value such a function would return) is unreachable because the
module never defines the attribute. -/
def loadSystemPromptLookup : Except PyExc (Option String) :=
  if "load_system_prompt" ∈ gptcliModuleAttrs then Except.ok none
  else Except.error PyExc.attributeError

/-- Result of the hosted-API call made by the UI worker thread. -/
inductive ApiResult where
  | ok (response : String)
  | apiError (message : String)

/-- How one UI send ends: a success or a shown error when a handler of the
`try` block runs, or an exception that escapes the worker function
uncaught because it was raised outside the `try` block. -/
inductive UiOutcome where
  | success
  | apiErrorShown (message : String)
  | genericErrorShown (exc : PyExc)
  | uncaughtException (exc : PyExc)
deriving DecidableEq

/-- Observable result of the UI send flow. -/
structure UiSendResult where
  savedConv : List Msg
  memMessages : List Msg
  apiCalled : Bool
  outcome : UiOutcome

/-- ui/app.py send flow: `send_message_to_api` (lines 66-88) appends the
user message to the loaded conversation and saves the conversation
immediately, before any API interaction; the worker thread `run_in_thread`
of `_send_message_async` (lines 90-183) then evaluates
`gptcli.load_system_prompt(chat_name)` at line 99 (`promptLookup`, whose
factual value is `loadSystemPromptLookup`), builds the payload, and only
then enters the `try` block at line 127 that makes the API call
(`apiResult`). The lookup sits outside that `try`, so an `AttributeError`
raised by it propagates uncaught out of the worker function — the handlers
at lines 174-179 never run, no API request is issued, and the
already-persisted user message stays in the conversation file. Inside the
`try`, success appends and saves the assistant reply tagged with the
model, while `APIError` (lines 174-176) only shows an error: the appended
user message is neither popped from the in-memory list nor removed from
the saved conversation file. -/
def uiSendMessage (saved : List Msg) (user_message model : String)
    (promptLookup : Except PyExc (Option String)) (apiResult : ApiResult) :
    UiSendResult :=
  let messages := saved ++ [userMsg user_message]
  match promptLookup with
  | Except.error e =>
      { savedConv := messages, memMessages := messages, apiCalled := false,
        outcome := UiOutcome.uncaughtException e }
  | Except.ok _ =>
      match apiResult with
      | ApiResult.apiError msg =>
          { savedConv := messages, memMessages := messages,
            apiCalled := true, outcome := UiOutcome.apiErrorShown msg }
      | ApiResult.ok response =>
          let final := messages ++ [assistantMsgUi response model]
          { savedConv := final, memMessages := final, apiCalled := true,
            outcome := UiOutcome.success }

/-- Outcome of `action_edit_chat` with a chat selected. -/
inductive EditChatOutcome where
  | modalPushed (current_prompt : Option String)
  | uncaughtAttributeError
deriving DecidableEq

/-- ui/widgets/chat_list_panel.py:action_edit_chat (lines 216-239) with a
chat selected: it evaluates `gptcli.load_system_prompt(chat_name)` before
pushing the edit modal; no handler surrounds the call, so a raised
`AttributeError` propagates uncaught. -/
def action_edit_chat (promptLookup : Except PyExc (Option String)) :
    EditChatOutcome :=
  match promptLookup with
  | Except.error _ => EditChatOutcome.uncaughtAttributeError
  | Except.ok p => EditChatOutcome.modalPushed p

/-- ui/widgets/chat_list_panel.py:action_delete_chat (lines 173-214),
confirmed branch: each of the chat's four files — conversation, per-chat
config, statistics, system prompt — is removed when it exists (so each is
missing afterwards), and no other path is touched. -/
def action_delete_chat (fs : FS) (chat_name : String) : FS :=
  fun p =>
    if p = convPath chat_name ∨ p = chatConfigPath chat_name
        ∨ p = statsPath chat_name ∨ p = systemPromptPath chat_name then
      FileContent.missing
    else fs p

/-- ui/widgets.py:action_delete_chat (lines 187-229), the near-duplicate
legacy chat-list panel, confirmed branch: only the conversation, per-chat
config and statistics files are removed; the system-prompt file is not
touched. -/
def legacy_action_delete_chat (fs : FS) (chat_name : String) : FS :=
  fun p =>
    if p = convPath chat_name ∨ p = chatConfigPath chat_name
        ∨ p = statsPath chat_name then
      FileContent.missing
    else fs p

/-- gptcli.save_chat_config: writes the per-chat config file, touching no
other path. -/
def save_chat_config (fs : FS) (chat_name : String) (config : Dict) : FS :=
  fun p =>
    if p = chatConfigPath chat_name then FileContent.json (Json.obj config)
    else fs p

/-- gptcli.save_statistics: writes the statistics file, touching no other
path. -/
def save_statistics (fs : FS) (chat_name : String) (stats : Dict) : FS :=
  fun p =>
    if p = statsPath chat_name then FileContent.json (Json.obj stats)
    else fs p

/-- gptcli.save_system_prompt: a falsy (empty) prompt removes the chat's
system-prompt file when it exists; otherwise the prompt is written to that
file. No other path is touched. -/
def save_system_prompt (fs : FS) (chat_name : String) (prompt : String) :
    FS :=
  if prompt = "" then
    fun p =>
      if p = systemPromptPath chat_name then FileContent.missing else fs p
  else
    fun p =>
      if p = systemPromptPath chat_name then
        FileContent.json (Json.obj [("system_prompt", Json.str prompt)])
      else fs p

/-- gptcli.ensure_config_file: writes the defaults to the config path when
no file exists there; otherwise does nothing. -/
def ensure_config_file (fs : FS) (CONFIG_PATH : String) : FS :=
  fun p =>
    if p = CONFIG_PATH then
      match fs CONFIG_PATH with
      | FileContent.missing => FileContent.json (Json.obj DEFAULT_CONFIG)
      | c => c
    else fs p

/-- Directory state: the set of directories that currently exist. -/
abbrev DirState := List String

/-- Python `if not os.path.exists(d): os.makedirs(d)`. -/
def mkdirIfAbsent (dirs : DirState) (d : String) : DirState :=
  if d ∈ dirs then dirs else d :: dirs

/-- gptcli.get_conversation_path: creates `conversations` when absent and
returns `conversations/<name>.json`. -/
def get_conversation_path (dirs : DirState) (chat_name : String) :
    String × DirState :=
  (convPath chat_name, mkdirIfAbsent dirs "conversations")

/-- gptcli.get_chat_config_path: creates `conversations` when absent and
returns `conversations/<name>.config.json`. -/
def get_chat_config_path (dirs : DirState) (chat_name : String) :
    String × DirState :=
  (chatConfigPath chat_name, mkdirIfAbsent dirs "conversations")

/-- gptcli.get_stats_path: creates `conversations` and then
`conversations/statistics` when absent and returns
`conversations/statistics/<name>.json`. -/
def get_stats_path (dirs : DirState) (chat_name : String) :
    String × DirState :=
  let dirs1 := mkdirIfAbsent dirs "conversations"
  let dirs2 := mkdirIfAbsent dirs1 "conversations/statistics"
  (statsPath chat_name, dirs2)

/-- gptcli.get_system_prompt_path: creates `conversations` and then
`conversations/system_prompts` when absent and returns
`conversations/system_prompts/<name>.json`. -/
def get_system_prompt_path (dirs : DirState) (chat_name : String) :
    String × DirState :=
  let dirs1 := mkdirIfAbsent dirs "conversations"
  let dirs2 := mkdirIfAbsent dirs1 "conversations/system_prompts"
  (systemPromptPath chat_name, dirs2)

theorem convPath_inj (x y : String) (h : convPath x = convPath y) : x = y := by
  have hd := congrArg String.data h
  simp only [convPath, String.data_append] at hd
  exact String.toList_inj.mp (List.append_cancel_left (List.append_cancel_right hd))

theorem chatConfigPath_inj (x y : String)
    (h : chatConfigPath x = chatConfigPath y) : x = y := by
  have hd := congrArg String.data h
  simp only [chatConfigPath, String.data_append] at hd
  exact String.toList_inj.mp (List.append_cancel_left (List.append_cancel_right hd))

theorem statsPath_inj (x y : String) (h : statsPath x = statsPath y) : x = y := by
  have hd := congrArg String.data h
  simp only [statsPath, String.data_append] at hd
  exact String.toList_inj.mp (List.append_cancel_left (List.append_cancel_right hd))

theorem systemPromptPath_inj (x y : String)
    (h : systemPromptPath x = systemPromptPath y) : x = y := by
  have hd := congrArg String.data h
  simp only [systemPromptPath, String.data_append] at hd
  exact String.toList_inj.mp (List.append_cancel_left (List.append_cancel_right hd))

theorem convPath_ne_chatConfigPath (x y : String)
    (hx : x.data ≠ y.data ++ ".config".data) : convPath x ≠ chatConfigPath y := by
  intro h
  have hd := congrArg String.data h
  simp only [convPath, chatConfigPath, String.data_append] at hd
  have he : (['.', 'c', 'o', 'n', 'f', 'i', 'g', '.', 'j', 's', 'o', 'n'] : List Char)
      = ['.', 'c', 'o', 'n', 'f', 'i', 'g'] ++ ['.', 'j', 's', 'o', 'n'] := rfl
  rw [he, ← List.append_assoc] at hd
  have h2 := List.append_cancel_right hd
  rw [List.append_assoc] at h2
  exact hx (List.append_cancel_left h2)

theorem convPath_ne_statsPath (x y : String) (hx : ('/' : Char) ∉ x.data) :
    convPath x ≠ statsPath y := by
  intro h
  have hd := congrArg String.data h
  simp only [convPath, statsPath, String.data_append] at hd
  have h2 := List.append_cancel_right hd
  have he : (['c', 'o', 'n', 'v', 'e', 'r', 's', 'a', 't', 'i', 'o', 'n', 's', '/',
        's', 't', 'a', 't', 'i', 's', 't', 'i', 'c', 's', '/'] : List Char)
      = ['c', 'o', 'n', 'v', 'e', 'r', 's', 'a', 't', 'i', 'o', 'n', 's', '/']
        ++ ['s', 't', 'a', 't', 'i', 's', 't', 'i', 'c', 's', '/'] := rfl
  rw [he, List.append_assoc] at h2
  have h3 := List.append_cancel_left h2
  apply hx
  rw [h3]
  exact List.mem_append.mpr (Or.inl (by decide))

theorem convPath_ne_systemPromptPath (x y : String) (hx : ('/' : Char) ∉ x.data) :
    convPath x ≠ systemPromptPath y := by
  intro h
  have hd := congrArg String.data h
  simp only [convPath, systemPromptPath, String.data_append] at hd
  have h2 := List.append_cancel_right hd
  have he : (['c', 'o', 'n', 'v', 'e', 'r', 's', 'a', 't', 'i', 'o', 'n', 's', '/',
        's', 'y', 's', 't', 'e', 'm', '_', 'p', 'r', 'o', 'm', 'p', 't', 's', '/'] : List Char)
      = ['c', 'o', 'n', 'v', 'e', 'r', 's', 'a', 't', 'i', 'o', 'n', 's', '/']
        ++ ['s', 'y', 's', 't', 'e', 'm', '_', 'p', 'r', 'o', 'm', 'p', 't', 's', '/'] := rfl
  rw [he, List.append_assoc] at h2
  have h3 := List.append_cancel_left h2
  apply hx
  rw [h3]
  exact List.mem_append.mpr (Or.inl (by decide))

theorem chatConfigPath_ne_statsPath (x y : String) (hx : ('/' : Char) ∉ x.data) :
    chatConfigPath x ≠ statsPath y := by
  intro h
  have hd := congrArg String.data h
  simp only [chatConfigPath, statsPath, String.data_append] at hd
  have he : (['.', 'c', 'o', 'n', 'f', 'i', 'g', '.', 'j', 's', 'o', 'n'] : List Char)
      = ['.', 'c', 'o', 'n', 'f', 'i', 'g'] ++ ['.', 'j', 's', 'o', 'n'] := rfl
  have he2 : (['c', 'o', 'n', 'v', 'e', 'r', 's', 'a', 't', 'i', 'o', 'n', 's', '/',
        's', 't', 'a', 't', 'i', 's', 't', 'i', 'c', 's', '/'] : List Char)
      = ['c', 'o', 'n', 'v', 'e', 'r', 's', 'a', 't', 'i', 'o', 'n', 's', '/']
        ++ ['s', 't', 'a', 't', 'i', 's', 't', 'i', 'c', 's', '/'] := rfl
  rw [he, ← List.append_assoc] at hd
  have h2 := List.append_cancel_right hd
  rw [he2, List.append_assoc, List.append_assoc] at h2
  have h3 := List.append_cancel_left h2
  have hmem : ('/' : Char) ∈ x.data ++ ['.', 'c', 'o', 'n', 'f', 'i', 'g'] := by
    rw [h3]
    exact List.mem_append.mpr (Or.inl (by decide))
  rcases List.mem_append.mp hmem with hm | hm
  · exact hx hm
  · revert hm
    decide

theorem chatConfigPath_ne_systemPromptPath (x y : String)
    (hx : ('/' : Char) ∉ x.data) : chatConfigPath x ≠ systemPromptPath y := by
  intro h
  have hd := congrArg String.data h
  simp only [chatConfigPath, systemPromptPath, String.data_append] at hd
  have he : (['.', 'c', 'o', 'n', 'f', 'i', 'g', '.', 'j', 's', 'o', 'n'] : List Char)
      = ['.', 'c', 'o', 'n', 'f', 'i', 'g'] ++ ['.', 'j', 's', 'o', 'n'] := rfl
  have he2 : (['c', 'o', 'n', 'v', 'e', 'r', 's', 'a', 't', 'i', 'o', 'n', 's', '/',
        's', 'y', 's', 't', 'e', 'm', '_', 'p', 'r', 'o', 'm', 'p', 't', 's', '/'] : List Char)
      = ['c', 'o', 'n', 'v', 'e', 'r', 's', 'a', 't', 'i', 'o', 'n', 's', '/']
        ++ ['s', 'y', 's', 't', 'e', 'm', '_', 'p', 'r', 'o', 'm', 'p', 't', 's', '/'] := rfl
  rw [he, ← List.append_assoc] at hd
  have h2 := List.append_cancel_right hd
  rw [he2, List.append_assoc, List.append_assoc] at h2
  have h3 := List.append_cancel_left h2
  have hmem : ('/' : Char) ∈ x.data ++ ['.', 'c', 'o', 'n', 'f', 'i', 'g'] := by
    rw [h3]
    exact List.mem_append.mpr (Or.inl (by decide))
  rcases List.mem_append.mp hmem with hm | hm
  · exact hx hm
  · revert hm
    decide

theorem statsPath_ne_systemPromptPath (x y : String) :
    statsPath x ≠ systemPromptPath y := by
  intro h
  have hd := congrArg String.data h
  simp only [statsPath, systemPromptPath, String.data_append] at hd
  have h2 := List.append_cancel_right hd
  simp at h2

theorem convPath_length (c : String) : (convPath c).length = c.length + 19 := by
  have h1 : ("conversations/" : String).length = 14 := rfl
  have h2 : (".json" : String).length = 5 := rfl
  simp only [convPath, String.length_append, h1, h2]
  omega

theorem chatConfigPath_length (c : String) :
    (chatConfigPath c).length = c.length + 26 := by
  have h1 : ("conversations/" : String).length = 14 := rfl
  have h2 : (".config.json" : String).length = 12 := rfl
  simp only [chatConfigPath, String.length_append, h1, h2]
  omega

theorem statsPath_length (c : String) : (statsPath c).length = c.length + 30 := by
  have h1 : ("conversations/statistics/" : String).length = 25 := rfl
  have h2 : (".json" : String).length = 5 := rfl
  simp only [statsPath, String.length_append, h1, h2]
  omega

theorem systemPromptPath_length (c : String) :
    (systemPromptPath c).length = c.length + 34 := by
  have h1 : ("conversations/system_prompts/" : String).length = 29 := rfl
  have h2 : (".json" : String).length = 5 := rfl
  simp only [systemPromptPath, String.length_append, h1, h2]
  omega

theorem systemPromptPath_ne_same (c : String) :
    systemPromptPath c ≠ convPath c
    ∧ systemPromptPath c ≠ chatConfigPath c
    ∧ systemPromptPath c ≠ statsPath c := by
  refine ⟨fun h => ?_, fun h => ?_, fun h => ?_⟩ <;>
    have hl := congrArg String.length h
  · rw [systemPromptPath_length, convPath_length] at hl
    omega
  · rw [systemPromptPath_length, chatConfigPath_length] at hl
    omega
  · rw [systemPromptPath_length, statsPath_length] at hl
    omega

/-- Argument tuple of one `update_statistics` call. -/
structure UpdateArgs where
  input_tokens : Int
  output_tokens : Int
  total_tokens : Int
  cost : Option ℚ
  elapsed_time : ℚ

/-- Non-negativity of one update's arguments. -/
def UpdateArgs.Nonneg (u : UpdateArgs) : Prop :=
  0 ≤ u.input_tokens ∧ 0 ≤ u.output_tokens ∧ 0 ≤ u.total_tokens
    ∧ (∀ c, u.cost = some c → 0 ≤ c) ∧ 0 ≤ u.elapsed_time

/-- A sequence of `update_statistics` calls, applied in order. -/
def runUpdates (chat_name : String) (store : String → Stats)
    (updates : List UpdateArgs) : String → Stats :=
  updates.foldl
    (fun st u => update_statistics chat_name st u.input_tokens
      u.output_tokens u.total_tokens u.cost u.elapsed_time)
    store

/-- Pointwise order on statistics records. -/
def statsLe (a b : Stats) : Prop :=
  a.total_input_tokens ≤ b.total_input_tokens
  ∧ a.total_output_tokens ≤ b.total_output_tokens
  ∧ a.total_tokens ≤ b.total_tokens
  ∧ a.total_cost ≤ b.total_cost
  ∧ a.total_time ≤ b.total_time
  ∧ a.request_count ≤ b.request_count

theorem statsLe_refl (a : Stats) : statsLe a a := by
  unfold statsLe
  refine ⟨le_refl _, le_refl _, le_refl _, le_refl _, le_refl _, le_refl _⟩

theorem statsLe_trans (a b c : Stats) (hab : statsLe a b) (hbc : statsLe b c) :
    statsLe a c := by
  obtain ⟨h1, h2, h3, h4, h5, h6⟩ := hab
  obtain ⟨g1, g2, g3, g4, g5, g6⟩ := hbc
  exact ⟨le_trans h1 g1, le_trans h2 g2, le_trans h3 g3, le_trans h4 g4,
    le_trans h5 g5, le_trans h6 g6⟩

theorem applyStatsUpdate_le (s : Stats) (u : UpdateArgs) (hu : u.Nonneg) :
    statsLe s (applyStatsUpdate s u.input_tokens u.output_tokens
      u.total_tokens u.cost u.elapsed_time) := by
  obtain ⟨h1, h2, h3, h4, h5⟩ := hu
  unfold statsLe applyStatsUpdate
  dsimp only
  refine ⟨by omega, by omega, by omega, ?_, by linarith, by omega⟩
  cases hc : u.cost with
  | none => simp
  | some c =>
      have := h4 c hc
      simp only
      linarith

theorem update_statistics_le (chat_name : String) (store : String → Stats)
    (u : UpdateArgs) (hu : u.Nonneg) (n : String) :
    statsLe (store n) (update_statistics chat_name store u.input_tokens
      u.output_tokens u.total_tokens u.cost u.elapsed_time n) := by
  unfold update_statistics
  by_cases hc : chat_name = ""
  · simp only [hc, if_true]
    exact statsLe_refl _
  · simp only [hc, if_false]
    by_cases hn : n = chat_name
    · subst hn
      simp only [if_pos rfl]
      exact applyStatsUpdate_le _ u hu
    · simp only [hn, if_false]
      exact statsLe_refl _

theorem runUpdates_le (chat_name : String) (store : String → Stats)
    (updates : List UpdateArgs) (hu : ∀ u ∈ updates, u.Nonneg) (n : String) :
    statsLe (store n) (runUpdates chat_name store updates n) := by
  induction updates generalizing store with
  | nil => exact statsLe_refl _
  | cons u rest ih =>
      have hstep := update_statistics_le chat_name store u
        (hu u (List.mem_cons_self u rest)) n
      have hrest := ih (update_statistics chat_name store u.input_tokens
          u.output_tokens u.total_tokens u.cost u.elapsed_time)
        (fun v hv => hu v (List.mem_cons_of_mem u hv))
      exact statsLe_trans _ _ _ hstep hrest

/-- C4: for every (non-empty) chat name and every `update_statistics` call
with non-negative token counts, non-negative elapsed time and optional
cost, each stored counter afterwards equals its previous value plus the
corresponding argument (cost unchanged when no cost is given, request
count up by one); hence each counter is non-decreasing, and stays
non-decreasing across any sequence of such updates. The empty chat name
is the temporary-conversation sentinel for which the function returns
without touching any record. -/
theorem c4_update_statistics_additive (chat_name : String)
    (store : String → Stats) (it ot tt : Int) (cost : Option ℚ) (et : ℚ)
    (hchat : chat_name ≠ "") (hit : 0 ≤ it) (hot : 0 ≤ ot) (htt : 0 ≤ tt)
    (het : 0 ≤ et) (hcost : ∀ c, cost = some c → 0 ≤ c) :
    (update_statistics chat_name store it ot tt cost et
        chat_name).total_input_tokens
      = (store chat_name).total_input_tokens + it
    ∧ (update_statistics chat_name store it ot tt cost et
        chat_name).total_output_tokens
      = (store chat_name).total_output_tokens + ot
    ∧ (update_statistics chat_name store it ot tt cost et
        chat_name).total_tokens
      = (store chat_name).total_tokens + tt
    ∧ (cost = none →
        (update_statistics chat_name store it ot tt cost et
          chat_name).total_cost = (store chat_name).total_cost)
    ∧ (∀ c, cost = some c →
        (update_statistics chat_name store it ot tt cost et
          chat_name).total_cost = (store chat_name).total_cost + c)
    ∧ (update_statistics chat_name store it ot tt cost et
        chat_name).total_time
      = (store chat_name).total_time + et
    ∧ (update_statistics chat_name store it ot tt cost et
        chat_name).request_count
      = (store chat_name).request_count + 1
    ∧ statsLe (store chat_name)
        (update_statistics chat_name store it ot tt cost et chat_name)
    ∧ (∀ updates : List UpdateArgs, (∀ u ∈ updates, u.Nonneg) →
        ∀ n, statsLe (store n) (runUpdates chat_name store updates n)) := by
  have hunf : update_statistics chat_name store it ot tt cost et chat_name
      = applyStatsUpdate (store chat_name) it ot tt cost et := by
    unfold update_statistics
    simp [hchat]
  refine ⟨?_, ?_, ?_, ?_, ?_, ?_, ?_, ?_, ?_⟩
  · rw [hunf]
    rfl
  · rw [hunf]
    rfl
  · rw [hunf]
    rfl
  · intro hnone
    rw [hunf]
    simp [applyStatsUpdate, hnone]
  · intro c hc
    rw [hunf]
    simp [applyStatsUpdate, hc]
  · rw [hunf]
    rfl
  · rw [hunf]
    rfl
  · exact update_statistics_le chat_name store ⟨it, ot, tt, cost, et⟩
      ⟨hit, hot, htt, hcost, het⟩ chat_name
  · intro updates hu n
    exact runUpdates_le chat_name store updates hu n

/-- A store holding the all-zero record for every chat. -/
def zeroStore : String → Stats := fun _ => ⟨0, 0, 0, 0, 0, 0⟩

/-- Witness for C4: one concrete update on the all-zero store. -/
theorem c4_update_statistics_additive_witness :
    ("a" : String) ≠ ""
    ∧ (update_statistics "a" zeroStore 1 2 3 (some (1 / 2)) 2
        "a").total_input_tokens
      = (zeroStore "a").total_input_tokens + 1 := by
  have h := c4_update_statistics_additive "a" zeroStore 1 2 3 (some (1 / 2)) 2
    (by decide) (by decide) (by decide) (by decide) (by norm_num)
    (by rintro c hc; cases hc; norm_num)
  exact ⟨by decide, h.1⟩

/-- C5: saving then loading a conversation returns exactly the saved list,
and a missing conversation file, an unreadable or unparseable one, a
legacy JSON string, or a well-formed non-list document (for example an
object) all load as the empty list with no exception raised. -/
theorem c5_conversation_roundtrip (fs : FS) (chat_name : String)
    (messages : List Json) :
    load_conversation (save_conversation fs chat_name messages) chat_name
        = messages
    ∧ (fs (convPath chat_name) = FileContent.missing →
        load_conversation fs chat_name = [])
    ∧ (fs (convPath chat_name) = FileContent.malformed →
        load_conversation fs chat_name = [])
    ∧ (∀ s, fs (convPath chat_name) = FileContent.json (Json.str s) →
        load_conversation fs chat_name = [])
    ∧ (∀ entries,
        fs (convPath chat_name) = FileContent.json (Json.obj entries) →
        load_conversation fs chat_name = []) := by
  refine ⟨?_, ?_, ?_, ?_, ?_⟩
  · simp [load_conversation, save_conversation]
  · intro h
    simp [load_conversation, h]
  · intro h
    simp [load_conversation, h]
  · intro s h
    simp [load_conversation, h]
  · intro entries h
    simp [load_conversation, h]

/-- A file system with nothing in it. -/
def fsEmpty : FS := fun _ => FileContent.missing

/-- A file system whose conversation file for chat "a" is unparseable. -/
def fsMalformedConv : FS := fun p =>
  if p = convPath "a" then FileContent.malformed else FileContent.missing

/-- A file system whose conversation file for chat "a" holds a JSON
string. -/
def fsStrConv : FS := fun p =>
  if p = convPath "a" then FileContent.json (Json.str "hi")
  else FileContent.missing

/-- A file system whose conversation file for chat "a" holds a JSON
object. -/
def fsObjConv : FS := fun p =>
  if p = convPath "a" then FileContent.json (Json.obj [])
  else FileContent.missing

/-- Witness for C5: a concrete round-trip and each degraded load. -/
theorem c5_conversation_roundtrip_witness :
    load_conversation
        (save_conversation fsEmpty "a" [Json.obj (userMsg "hello")]) "a"
      = [Json.obj (userMsg "hello")]
    ∧ load_conversation fsEmpty "a" = []
    ∧ load_conversation fsMalformedConv "a" = []
    ∧ load_conversation fsStrConv "a" = []
    ∧ load_conversation fsObjConv "a" = [] :=
  ⟨(c5_conversation_roundtrip fsEmpty "a" [Json.obj (userMsg "hello")]).1,
   (c5_conversation_roundtrip fsEmpty "a" []).2.1 rfl,
   (c5_conversation_roundtrip fsMalformedConv "a" []).2.2.1
     (by simp [fsMalformedConv]),
   (c5_conversation_roundtrip fsStrConv "a" []).2.2.2.1 "hi"
     (by simp [fsStrConv]),
   (c5_conversation_roundtrip fsObjConv "a" []).2.2.2.2 []
     (by simp [fsObjConv])⟩

/-- C6: for every model present in the pricing table, `calculate_cost` is
the input token count over one million times the entry's input price plus
the output token count over one million times its output price — linear in
each count, zero at zero tokens — and for every absent model it is
`None`. -/
theorem c6_calculate_cost_linear (table : List (String × PriceEntry))
    (model : String) (input_tokens output_tokens : Int) :
    (∀ p, dictGet table model = some p →
        calculate_cost table model input_tokens output_tokens
          = some (((input_tokens : ℚ) / 1000000) * p.input
              + ((output_tokens : ℚ) / 1000000) * p.output)
        ∧ calculate_cost table model 0 0 = some 0)
    ∧ (dictGet table model = none →
        calculate_cost table model input_tokens output_tokens = none) := by
  constructor
  · intro p hp
    constructor
    · simp [calculate_cost, hp]
    · simp [calculate_cost, hp]
  · intro hnone
    simp [calculate_cost, hnone]

/-- Witness for C6: the built-in table prices a million input plus two
million output "gpt-5.1" tokens at 2.5 + 2 * 10, and an unknown model has
no cost. -/
theorem c6_calculate_cost_linear_witness :
    dictGet [("gpt-5.1", (⟨2.5, 10⟩ : PriceEntry))] "gpt-5.1"
        = some ⟨2.5, 10⟩
    ∧ calculate_cost [("gpt-5.1", ⟨2.5, 10⟩)] "gpt-5.1" 1000000 2000000
        = some ((((1000000 : Int) : ℚ) / 1000000)
              * (PriceEntry.mk 2.5 10).input
            + (((2000000 : Int) : ℚ) / 1000000) * (PriceEntry.mk 2.5 10).output)
    ∧ calculate_cost [("gpt-5.1", ⟨2.5, 10⟩)] "gpt-5.1" 0 0 = some 0
    ∧ dictGet [("gpt-5.1", (⟨2.5, 10⟩ : PriceEntry))] "an-unknown-model"
        = none
    ∧ calculate_cost [("gpt-5.1", ⟨2.5, 10⟩)] "an-unknown-model" 3 4
        = none := by
  have hsome : dictGet [("gpt-5.1", (⟨2.5, 10⟩ : PriceEntry))] "gpt-5.1"
      = some ⟨2.5, 10⟩ := by simp [dictGet]
  have hnone : dictGet [("gpt-5.1", (⟨2.5, 10⟩ : PriceEntry))]
      "an-unknown-model" = none := by simp [dictGet]
  have h1 := (c6_calculate_cost_linear [("gpt-5.1", ⟨2.5, 10⟩)] "gpt-5.1"
    1000000 2000000).1 ⟨2.5, 10⟩ hsome
  have h2 := (c6_calculate_cost_linear [("gpt-5.1", ⟨2.5, 10⟩)]
    "an-unknown-model" 3 4).2 hnone
  exact ⟨hsome, h1.1, h1.2, hnone, h2⟩

/-- C1 counterexample: in the ui/app.py flow, a send whose API call fails
with an API error (granting the worker a successful system-prompt lookup
so the call is even reached) does not discard the appended user message:
starting from the empty transcript, the in-memory transcript after the
failed turn is not empty, and the conversation file persisted before the
call still holds the user message, so the claim's rollback fails for this
send-message implementation. -/
theorem c1_counterexample :
    (uiSendMessage [] "hello" "gpt-5.1" (Except.ok none)
        (ApiResult.apiError "rate limit")).memMessages ≠ ([] : List Msg)
    ∧ (uiSendMessage [] "hello" "gpt-5.1" (Except.ok none)
        (ApiResult.apiError "rate limit")).savedConv = [userMsg "hello"] := by
  constructor
  · intro h
    simp [uiSendMessage] at h
  · rfl

/-- C1 amended: on `APIError` the readline loop of gptcli.py pops the
appended user message, so its in-memory transcript after the failed turn
equals the transcript before it (for the streaming call and for the
non-streaming fallback alike) and a retry does not duplicate the message;
the background-thread flow of ui/app.py, which persists the user message
before the API call, performs no such rollback: on `APIError` the user
message remains in the worker's in-memory list and in the saved
conversation file. -/
theorem c1_amended_rollback (messages : List Msg) (user_input e : String)
    (saved : List Msg) (model : String) (p : Option String) :
    gptcliTurn messages user_input (StreamOutcome.apiError e) = messages
    ∧ gptcliTurn messages user_input
        (StreamOutcome.fallback (Except.error e)) = messages
    ∧ (uiSendMessage saved user_input model (Except.ok p)
        (ApiResult.apiError e)).memMessages = saved ++ [userMsg user_input]
    ∧ (uiSendMessage saved user_input model (Except.ok p)
        (ApiResult.apiError e)).savedConv = saved ++ [userMsg user_input] := by
  refine ⟨?_, ?_, rfl, rfl⟩
  · simp [gptcliTurn]
  · simp [gptcliTurn]

/-- C2 counterexample: the claim says the UI send flow "always takes its
generic-exception error branch", but the call
`gptcli.load_system_prompt(chat_name)` at ui/app.py line 99 sits outside
the `try` block that starts at line 127, so on a concrete send the
worker's outcome is an uncaught `AttributeError`, not the
generic-exception branch (which never runs). -/
theorem c2_counterexample :
    (uiSendMessage [] "hello" "gpt-5.1" loadSystemPromptLookup
        (ApiResult.ok "reply")).outcome
      = UiOutcome.uncaughtException PyExc.attributeError
    ∧ (uiSendMessage [] "hello" "gpt-5.1" loadSystemPromptLookup
        (ApiResult.ok "reply")).outcome
      ≠ UiOutcome.genericErrorShown PyExc.attributeError := by
  constructor
  · rfl
  · intro h
    cases h

/-- C2 amended: the module gptcli defines no attribute named
`load_system_prompt` (only `save_system_prompt` and
`get_system_prompt_path` exist among its attributes), yet the UI worker
thread and the edit-system-prompt action both call it; hence for every
prior conversation, user message, model and would-be API result, the UI
send flow raises `AttributeError` before any API request is issued — and
because the call sits outside the worker's `try` block, the exception
propagates uncaught rather than reaching the generic-exception handler,
leaving the already-persisted user message in the conversation file — and
the edit-system-prompt action raises an uncaught `AttributeError`. -/
theorem c2_amended_load_system_prompt_missing :
    "load_system_prompt" ∉ gptcliModuleAttrs
    ∧ "save_system_prompt" ∈ gptcliModuleAttrs
    ∧ "get_system_prompt_path" ∈ gptcliModuleAttrs
    ∧ loadSystemPromptLookup = Except.error PyExc.attributeError
    ∧ (∀ (saved : List Msg) (user_message model : String)
        (apiResult : ApiResult),
        uiSendMessage saved user_message model loadSystemPromptLookup
            apiResult
          = { savedConv := saved ++ [userMsg user_message],
              memMessages := saved ++ [userMsg user_message],
              apiCalled := false,
              outcome := UiOutcome.uncaughtException PyExc.attributeError })
    ∧ action_edit_chat loadSystemPromptLookup
        = EditChatOutcome.uncaughtAttributeError := by
  have hmem : "load_system_prompt" ∉ gptcliModuleAttrs := by decide
  have hlook : loadSystemPromptLookup = Except.error PyExc.attributeError := by
    unfold loadSystemPromptLookup
    rw [if_neg hmem]
  refine ⟨hmem, by decide, by decide, hlook, ?_, ?_⟩
  · intro saved user_message model apiResult
    rw [hlook]
    rfl
  · rw [hlook]
    rfl

/-- Whether a JSON document is an object (a Python dict after parsing). -/
def isJsonObj : Json → Bool
  | Json.obj _ => true
  | _ => false

/-- A file system whose statistics file for chat "a" holds the valid JSON
document `[]`, which is not an object. -/
def fsStatsArr : FS := fun p =>
  if p = statsPath "a" then FileContent.json (Json.arr [])
  else FileContent.missing

/-- C8 counterexample: with the statistics file for chat "a" holding
well-formed non-object JSON (the document `[]`), `load_statistics` raises
`AttributeError` (from `data.get` on a list) instead of returning the
all-zero statistics record as the claim states. -/
theorem c8_counterexample :
    load_statistics fsStatsArr "a" = Except.error PyExc.attributeError
    ∧ load_statistics fsStatsArr "a" ≠ Except.ok zeroStats := by
  have h : load_statistics fsStatsArr "a"
      = Except.error PyExc.attributeError := by
    simp [load_statistics, fsStatsArr]
  refine ⟨h, ?_⟩
  rw [h]
  simp

/-- C8 amended: for every chat name, a missing, unreadable or malformed
per-chat config file yields the empty dict and a missing, unreadable or
malformed statistics file yields the all-zero record — neither function
raises on file I/O or JSON-decode failure, and `load_statistics` can raise
only when its file holds well-formed non-object JSON; a parsed non-object
document yields the empty dict for `load_chat_config`, but makes
`load_statistics` raise `AttributeError`. -/
theorem c8_amended_load_defaults (fs : FS) (chat_name : String) :
    (fs (chatConfigPath chat_name) = FileContent.missing →
        load_chat_config fs chat_name = [])
    ∧ (fs (chatConfigPath chat_name) = FileContent.malformed →
        load_chat_config fs chat_name = [])
    ∧ (∀ j, fs (chatConfigPath chat_name) = FileContent.json j →
        isJsonObj j = false → load_chat_config fs chat_name = [])
    ∧ (fs (statsPath chat_name) = FileContent.missing →
        load_statistics fs chat_name = Except.ok zeroStats)
    ∧ (fs (statsPath chat_name) = FileContent.malformed →
        load_statistics fs chat_name = Except.ok zeroStats)
    ∧ (∀ exc, load_statistics fs chat_name = Except.error exc →
        ∃ j, fs (statsPath chat_name) = FileContent.json j
          ∧ isJsonObj j = false)
    ∧ (∀ j, fs (statsPath chat_name) = FileContent.json j →
        isJsonObj j = false →
        load_statistics fs chat_name = Except.error PyExc.attributeError) := by
  refine ⟨?_, ?_, ?_, ?_, ?_, ?_, ?_⟩
  · intro h
    simp [load_chat_config, h]
  · intro h
    simp [load_chat_config, h]
  · intro j hj hobj
    cases j <;> simp_all [load_chat_config, isJsonObj]
  · intro h
    simp [load_statistics, h]
  · intro h
    simp [load_statistics, h]
  · intro exc h
    unfold load_statistics at h
    cases hfs : fs (statsPath chat_name) with
    | missing => rw [hfs] at h; cases h
    | malformed => rw [hfs] at h; cases h
    | json j =>
        rw [hfs] at h
        cases j with
        | obj entries => cases h
        | str s => exact ⟨Json.str s, rfl, rfl⟩
        | num q => exact ⟨Json.num q, rfl, rfl⟩
        | bool b => exact ⟨Json.bool b, rfl, rfl⟩
        | null => exact ⟨Json.null, rfl, rfl⟩
        | arr elems => exact ⟨Json.arr elems, rfl, rfl⟩
  · intro j hj hobj
    cases j <;> simp_all [load_statistics, isJsonObj]

/-- A file system where every file read fails. -/
def fsAllMalformed : FS := fun _ => FileContent.malformed

/-- A file system whose per-chat config file for chat "a" holds the valid
JSON document `[]`, which is not an object. -/
def fsCfgArr : FS := fun p =>
  if p = chatConfigPath "a" then FileContent.json (Json.arr [])
  else FileContent.missing

/-- Witness for C8 (amended): each degraded load at a concrete file
system. -/
theorem c8_amended_load_defaults_witness :
    load_chat_config fsEmpty "a" = []
    ∧ load_chat_config fsAllMalformed "a" = []
    ∧ load_chat_config fsCfgArr "a" = []
    ∧ load_statistics fsEmpty "a" = Except.ok zeroStats
    ∧ load_statistics fsAllMalformed "a" = Except.ok zeroStats
    ∧ load_statistics fsStatsArr "a" = Except.error PyExc.attributeError :=
  ⟨(c8_amended_load_defaults fsEmpty "a").1 rfl,
   (c8_amended_load_defaults fsAllMalformed "a").2.1 rfl,
   (c8_amended_load_defaults fsCfgArr "a").2.2.1 (Json.arr [])
     (by simp [fsCfgArr]) rfl,
   (c8_amended_load_defaults fsEmpty "a").2.2.2.1 rfl,
   (c8_amended_load_defaults fsAllMalformed "a").2.2.2.2.1 rfl,
   (c8_amended_load_defaults fsStatsArr "a").2.2.2.2.2.2 (Json.arr [])
     (by simp [fsStatsArr]) rfl⟩

theorem updateStrField_get_other (c d : Dict) (key k : String)
    (h : key ≠ k) : dictGet (updateStrField c d key) k = dictGet c k := by
  unfold updateStrField
  cases hd : dictGet d key with
  | none => rfl
  | some j =>
      cases j with
      | str s => exact dictGet_dictAssign_ne c key k (Json.str s) h
      | num q => rfl
      | bool b => rfl
      | null => rfl
      | arr elems => rfl
      | obj entries => rfl

theorem updateStrField_get_same (c d : Dict) (key : String) :
    dictGet (updateStrField c d key) key
      = match dictGet d key with
        | some (Json.str s) => some (Json.str s)
        | _ => dictGet c key := by
  unfold updateStrField
  cases hd : dictGet d key with
  | none => rfl
  | some j =>
      cases j with
      | str s => exact dictGet_dictAssign_self c key (Json.str s)
      | num q => rfl
      | bool b => rfl
      | null => rfl
      | arr elems => rfl
      | obj entries => rfl

theorem updateDictField_get_other (c d : Dict) (key k : String)
    (h : key ≠ k) : dictGet (updateDictField c d key) k = dictGet c k := by
  unfold updateDictField
  cases hd : dictGet d key with
  | none => rfl
  | some j =>
      cases j with
      | obj entries =>
          cases hc : dictGet c key with
          | none => rfl
          | some jc =>
              cases jc with
              | obj base =>
                  exact dictGet_dictAssign_ne c key k
                    (Json.obj (dictUpdate base entries)) h
              | str s => rfl
              | num q => rfl
              | bool b => rfl
              | null => rfl
              | arr elems => rfl
      | str s => rfl
      | num q => rfl
      | bool b => rfl
      | null => rfl
      | arr elems => rfl

theorem updateDictField_get_same_obj (c d : Dict) (key : String)
    (sub base : Dict) (hd : dictGet d key = some (Json.obj sub))
    (hc : dictGet c key = some (Json.obj base)) :
    dictGet (updateDictField c d key) key
      = some (Json.obj (dictUpdate base sub)) := by
  unfold updateDictField
  rw [hd, hc]
  exact dictGet_dictAssign_self c key (Json.obj (dictUpdate base sub))

theorem updateDictField_get_same_nonobj (c d : Dict) (key : String)
    (hd : ∀ sub, dictGet d key ≠ some (Json.obj sub)) :
    dictGet (updateDictField c d key) key = dictGet c key := by
  unfold updateDictField
  cases hg : dictGet d key with
  | none => rfl
  | some j =>
      cases j with
      | obj entries => exact absurd hg (hd entries)
      | str s => rfl
      | num q => rfl
      | bool b => rfl
      | null => rfl
      | arr elems => rfl

/-- Characterization of the six configuration lookups after merging a
parsed object `d` over the defaults. -/
theorem load_config_obj_gets (d : Dict) :
    dictGet (load_config (FileContent.json (Json.obj d))) "pricing"
        = some (Json.obj (match dictGet d "pricing" with
            | some (Json.obj sub) => dictUpdate defaultPricing sub
            | _ => defaultPricing))
    ∧ dictGet (load_config (FileContent.json (Json.obj d))) "system_prompts"
        = some (Json.obj (match dictGet d "system_prompts" with
            | some (Json.obj sub) => dictUpdate defaultSystemPrompts sub
            | _ => defaultSystemPrompts))
    ∧ dictGet (load_config (FileContent.json (Json.obj d))) "default_model"
        = (match dictGet d "default_model" with
            | some (Json.str s) => some (Json.str s)
            | _ => some (Json.str "gpt-5.1"))
    ∧ dictGet (load_config (FileContent.json (Json.obj d))) "user_name"
        = (match dictGet d "user_name" with
            | some (Json.str s) => some (Json.str s)
            | _ => some (Json.str "You"))
    ∧ dictGet (load_config (FileContent.json (Json.obj d))) "user_color"
        = (match dictGet d "user_color" with
            | some (Json.str s) => some (Json.str s)
            | _ => some (Json.str "cyan"))
    ∧ dictGet (load_config (FileContent.json (Json.obj d)))
          "assistant_color"
        = (match dictGet d "assistant_color" with
            | some (Json.str s) => some (Json.str s)
            | _ => some (Json.str "green")) := by
  have hpr0 : dictGet DEFAULT_CONFIG "pricing"
      = some (Json.obj defaultPricing) := rfl
  have hsp0 : dictGet DEFAULT_CONFIG "system_prompts"
      = some (Json.obj defaultSystemPrompts) := rfl
  have hcfg : load_config (FileContent.json (Json.obj d))
      = updateDictField
          (updateStrField
            (updateStrField
              (updateStrField
                (updateStrField (updateDictField DEFAULT_CONFIG d "pricing")
                  d "default_model")
                d "user_name")
              d "user_color")
            d "assistant_color")
          d "system_prompts" := rfl
  refine ⟨?_, ?_, ?_, ?_, ?_, ?_⟩
  · rw [hcfg,
      updateDictField_get_other _ d "system_prompts" "pricing" (by decide),
      updateStrField_get_other _ d "assistant_color" "pricing" (by decide),
      updateStrField_get_other _ d "user_color" "pricing" (by decide),
      updateStrField_get_other _ d "user_name" "pricing" (by decide),
      updateStrField_get_other _ d "default_model" "pricing" (by decide)]
    cases hg : dictGet d "pricing" with
    | none =>
        rw [updateDictField_get_same_nonobj _ d "pricing" (by simp [hg])]
        exact hpr0
    | some j =>
        cases j with
        | obj sub =>
            exact updateDictField_get_same_obj DEFAULT_CONFIG d "pricing"
              sub defaultPricing hg hpr0
        | str s =>
            rw [updateDictField_get_same_nonobj _ d "pricing" (by simp [hg])]
            exact hpr0
        | num q =>
            rw [updateDictField_get_same_nonobj _ d "pricing" (by simp [hg])]
            exact hpr0
        | bool b =>
            rw [updateDictField_get_same_nonobj _ d "pricing" (by simp [hg])]
            exact hpr0
        | null =>
            rw [updateDictField_get_same_nonobj _ d "pricing" (by simp [hg])]
            exact hpr0
        | arr elems =>
            rw [updateDictField_get_same_nonobj _ d "pricing" (by simp [hg])]
            exact hpr0
  · have hsp5 : dictGet
        (updateStrField
          (updateStrField
            (updateStrField
              (updateStrField (updateDictField DEFAULT_CONFIG d "pricing")
                d "default_model")
              d "user_name")
            d "user_color")
          d "assistant_color") "system_prompts"
        = some (Json.obj defaultSystemPrompts) := by
      rw [updateStrField_get_other _ d "assistant_color" "system_prompts"
          (by decide),
        updateStrField_get_other _ d "user_color" "system_prompts" (by decide),
        updateStrField_get_other _ d "user_name" "system_prompts" (by decide),
        updateStrField_get_other _ d "default_model" "system_prompts"
          (by decide),
        updateDictField_get_other _ d "pricing" "system_prompts" (by decide)]
      exact hsp0
    rw [hcfg]
    cases hg : dictGet d "system_prompts" with
    | none =>
        rw [updateDictField_get_same_nonobj _ d "system_prompts"
          (by simp [hg])]
        exact hsp5
    | some j =>
        cases j with
        | obj sub =>
            exact updateDictField_get_same_obj _ d "system_prompts" sub
              defaultSystemPrompts hg hsp5
        | str s =>
            rw [updateDictField_get_same_nonobj _ d "system_prompts"
              (by simp [hg])]
            exact hsp5
        | num q =>
            rw [updateDictField_get_same_nonobj _ d "system_prompts"
              (by simp [hg])]
            exact hsp5
        | bool b =>
            rw [updateDictField_get_same_nonobj _ d "system_prompts"
              (by simp [hg])]
            exact hsp5
        | null =>
            rw [updateDictField_get_same_nonobj _ d "system_prompts"
              (by simp [hg])]
            exact hsp5
        | arr elems =>
            rw [updateDictField_get_same_nonobj _ d "system_prompts"
              (by simp [hg])]
            exact hsp5
  · rw [hcfg,
      updateDictField_get_other _ d "system_prompts" "default_model"
        (by decide),
      updateStrField_get_other _ d "assistant_color" "default_model"
        (by decide),
      updateStrField_get_other _ d "user_color" "default_model" (by decide),
      updateStrField_get_other _ d "user_name" "default_model" (by decide),
      updateStrField_get_same _ d "default_model",
      updateDictField_get_other _ d "pricing" "default_model" (by decide)]
    rfl
  · rw [hcfg,
      updateDictField_get_other _ d "system_prompts" "user_name" (by decide),
      updateStrField_get_other _ d "assistant_color" "user_name" (by decide),
      updateStrField_get_other _ d "user_color" "user_name" (by decide),
      updateStrField_get_same _ d "user_name",
      updateStrField_get_other _ d "default_model" "user_name" (by decide),
      updateDictField_get_other _ d "pricing" "user_name" (by decide)]
    rfl
  · rw [hcfg,
      updateDictField_get_other _ d "system_prompts" "user_color" (by decide),
      updateStrField_get_other _ d "assistant_color" "user_color" (by decide),
      updateStrField_get_same _ d "user_color",
      updateStrField_get_other _ d "user_name" "user_color" (by decide),
      updateStrField_get_other _ d "default_model" "user_color" (by decide),
      updateDictField_get_other _ d "pricing" "user_color" (by decide)]
    rfl
  · rw [hcfg,
      updateDictField_get_other _ d "system_prompts" "assistant_color"
        (by decide),
      updateStrField_get_same _ d "assistant_color",
      updateStrField_get_other _ d "user_color" "assistant_color" (by decide),
      updateStrField_get_other _ d "user_name" "assistant_color" (by decide),
      updateStrField_get_other _ d "default_model" "assistant_color"
        (by decide),
      updateDictField_get_other _ d "pricing" "assistant_color" (by decide)]
    rfl

/-- C7: `load_config` merges the config file over the built-in defaults:
the result always contains every key of DEFAULT_CONFIG; each scalar field
(default_model, user_name, user_color, assistant_color) takes the file's
value exactly when the file supplies a string for it and the built-in
value otherwise; pricing and system_prompts are the built-in tables with
every entry the file supplies added, the file winning on shared keys,
whenever the file's value for them is an object; and a missing,
unreadable or unparseable file yields exactly the built-in defaults. -/
theorem c7_load_config_merge (file : FileContent) :
    ((dictGet (load_config file) "default_model").isSome
      ∧ (dictGet (load_config file) "user_name").isSome
      ∧ (dictGet (load_config file) "user_color").isSome
      ∧ (dictGet (load_config file) "assistant_color").isSome
      ∧ (dictGet (load_config file) "pricing").isSome
      ∧ (dictGet (load_config file) "system_prompts").isSome)
    ∧ (∀ d, file = FileContent.json (Json.obj d) →
        (∀ s, dictGet d "default_model" = some (Json.str s) →
          dictGet (load_config file) "default_model" = some (Json.str s))
        ∧ ((∀ s, dictGet d "default_model" ≠ some (Json.str s)) →
          dictGet (load_config file) "default_model"
            = some (Json.str "gpt-5.1"))
        ∧ (∀ s, dictGet d "user_name" = some (Json.str s) →
          dictGet (load_config file) "user_name" = some (Json.str s))
        ∧ ((∀ s, dictGet d "user_name" ≠ some (Json.str s)) →
          dictGet (load_config file) "user_name" = some (Json.str "You"))
        ∧ (∀ s, dictGet d "user_color" = some (Json.str s) →
          dictGet (load_config file) "user_color" = some (Json.str s))
        ∧ ((∀ s, dictGet d "user_color" ≠ some (Json.str s)) →
          dictGet (load_config file) "user_color" = some (Json.str "cyan"))
        ∧ (∀ s, dictGet d "assistant_color" = some (Json.str s) →
          dictGet (load_config file) "assistant_color" = some (Json.str s))
        ∧ ((∀ s, dictGet d "assistant_color" ≠ some (Json.str s)) →
          dictGet (load_config file) "assistant_color"
            = some (Json.str "green"))
        ∧ (∀ sub, dictGet d "pricing" = some (Json.obj sub) →
          dictGet (load_config file) "pricing"
              = some (Json.obj (dictUpdate defaultPricing sub))
            ∧ (∀ k v, dictGet sub k = some v →
                dictGet (dictUpdate defaultPricing sub) k = some v)
            ∧ (∀ k, dictGet sub k = none →
                dictGet (dictUpdate defaultPricing sub) k
                  = dictGet defaultPricing k))
        ∧ (∀ sub, dictGet d "system_prompts" = some (Json.obj sub) →
          dictGet (load_config file) "system_prompts"
              = some (Json.obj (dictUpdate defaultSystemPrompts sub))
            ∧ (∀ k v, dictGet sub k = some v →
                dictGet (dictUpdate defaultSystemPrompts sub) k = some v)
            ∧ (∀ k, dictGet sub k = none →
                dictGet (dictUpdate defaultSystemPrompts sub) k
                  = dictGet defaultSystemPrompts k)))
    ∧ (file = FileContent.missing → load_config file = DEFAULT_CONFIG)
    ∧ (file = FileContent.malformed → load_config file = DEFAULT_CONFIG) := by
  refine ⟨?_, ?_, ?_, ?_⟩
  · cases file with
    | missing => exact ⟨rfl, rfl, rfl, rfl, rfl, rfl⟩
    | malformed => exact ⟨rfl, rfl, rfl, rfl, rfl, rfl⟩
    | json j =>
        cases j with
        | obj d =>
            obtain ⟨hpr, hsp, hdm, hun, huc, hac⟩ := load_config_obj_gets d
            refine ⟨?_, ?_, ?_, ?_, ?_, ?_⟩
            · rw [hdm]
              cases hg : dictGet d "default_model" with
              | none => rfl
              | some j2 => cases j2 <;> rfl
            · rw [hun]
              cases hg : dictGet d "user_name" with
              | none => rfl
              | some j2 => cases j2 <;> rfl
            · rw [huc]
              cases hg : dictGet d "user_color" with
              | none => rfl
              | some j2 => cases j2 <;> rfl
            · rw [hac]
              cases hg : dictGet d "assistant_color" with
              | none => rfl
              | some j2 => cases j2 <;> rfl
            · rw [hpr]
              rfl
            · rw [hsp]
              rfl
        | str s => exact ⟨rfl, rfl, rfl, rfl, rfl, rfl⟩
        | num q => exact ⟨rfl, rfl, rfl, rfl, rfl, rfl⟩
        | bool b => exact ⟨rfl, rfl, rfl, rfl, rfl, rfl⟩
        | null => exact ⟨rfl, rfl, rfl, rfl, rfl, rfl⟩
        | arr elems => exact ⟨rfl, rfl, rfl, rfl, rfl, rfl⟩
  · intro d hf
    subst hf
    obtain ⟨hpr, hsp, hdm, hun, huc, hac⟩ := load_config_obj_gets d
    refine ⟨?_, ?_, ?_, ?_, ?_, ?_, ?_, ?_, ?_, ?_⟩
    · intro s hs
      rw [hdm, hs]
    · intro hne
      rw [hdm]
      cases hg : dictGet d "default_model" with
      | none => rfl
      | some j2 =>
          cases j2 with
          | str s => exact absurd hg (hne s)
          | num q => rfl
          | bool b => rfl
          | null => rfl
          | arr elems => rfl
          | obj entries => rfl
    · intro s hs
      rw [hun, hs]
    · intro hne
      rw [hun]
      cases hg : dictGet d "user_name" with
      | none => rfl
      | some j2 =>
          cases j2 with
          | str s => exact absurd hg (hne s)
          | num q => rfl
          | bool b => rfl
          | null => rfl
          | arr elems => rfl
          | obj entries => rfl
    · intro s hs
      rw [huc, hs]
    · intro hne
      rw [huc]
      cases hg : dictGet d "user_color" with
      | none => rfl
      | some j2 =>
          cases j2 with
          | str s => exact absurd hg (hne s)
          | num q => rfl
          | bool b => rfl
          | null => rfl
          | arr elems => rfl
          | obj entries => rfl
    · intro s hs
      rw [hac, hs]
    · intro hne
      rw [hac]
      cases hg : dictGet d "assistant_color" with
      | none => rfl
      | some j2 =>
          cases j2 with
          | str s => exact absurd hg (hne s)
          | num q => rfl
          | bool b => rfl
          | null => rfl
          | arr elems => rfl
          | obj entries => rfl
    · intro sub hsub
      refine ⟨?_, ?_, ?_⟩
      · rw [hpr, hsub]
      · intro k v hkv
        rw [dictGet_dictUpdate, hkv]
      · intro k hk
        rw [dictGet_dictUpdate, hk]
    · intro sub hsub
      refine ⟨?_, ?_, ?_⟩
      · rw [hsp, hsub]
      · intro k v hkv
        rw [dictGet_dictUpdate, hkv]
      · intro k hk
        rw [dictGet_dictUpdate, hk]
  · intro h
    subst h
    rfl
  · intro h
    subst h
    rfl

/-- A concrete config file body: overrides the default model, supplies a
non-string user_color (ignored), adds one pricing entry. -/
def exCfgData : Dict :=
  [("default_model", Json.str "o3"),
   ("user_color", Json.num 5),
   ("pricing", Json.obj
     [("m", Json.obj [("input", Json.num 1), ("output", Json.num 2)])])]

/-- Witness for C7 at a concrete config file: the supplied string wins,
an absent or non-string scalar falls back to the default, the pricing
table keeps the built-in entry and gains the new one, and a missing file
loads as the defaults. -/
theorem c7_load_config_merge_witness :
    dictGet (load_config (FileContent.json (Json.obj exCfgData)))
        "default_model" = some (Json.str "o3")
    ∧ dictGet (load_config (FileContent.json (Json.obj exCfgData)))
        "user_name" = some (Json.str "You")
    ∧ dictGet (load_config (FileContent.json (Json.obj exCfgData)))
        "user_color" = some (Json.str "cyan")
    ∧ dictGet (dictUpdate defaultPricing
        [("m", Json.obj [("input", Json.num 1), ("output", Json.num 2)])]) "m"
      = some (Json.obj [("input", Json.num 1), ("output", Json.num 2)])
    ∧ dictGet (dictUpdate defaultPricing
        [("m", Json.obj [("input", Json.num 1), ("output", Json.num 2)])])
        "gpt-5.1"
      = dictGet defaultPricing "gpt-5.1"
    ∧ load_config FileContent.missing = DEFAULT_CONFIG := by
  have h := (c7_load_config_merge (FileContent.json (Json.obj exCfgData))).2.1
    exCfgData rfl
  have hun : dictGet exCfgData "user_name" = none := rfl
  have huc : dictGet exCfgData "user_color" = some (Json.num 5) := rfl
  have hpr := h.2.2.2.2.2.2.2.2.1
    [("m", Json.obj [("input", Json.num 1), ("output", Json.num 2)])] rfl
  refine ⟨h.1 "o3" rfl, ?_, ?_, ?_, ?_, ?_⟩
  · refine h.2.2.2.1 ?_
    intro s hs
    rw [hun] at hs
    cases hs
  · refine h.2.2.2.2.2.1 ?_
    intro s hs
    rw [huc] at hs
    cases hs
  · exact hpr.2.1 "m"
      (Json.obj [("input", Json.num 1), ("output", Json.num 2)]) rfl
  · exact hpr.2.2 "gpt-5.1" rfl
  · exact (c7_load_config_merge FileContent.missing).2.2.1 rfl

/-- A file system where all four files of chat "a" exist. -/
def fsChatA : FS := fun p =>
  if p = convPath "a" then FileContent.json (Json.arr [])
  else if p = chatConfigPath "a" then FileContent.json (Json.obj [])
  else if p = statsPath "a" then FileContent.json (Json.obj [])
  else if p = systemPromptPath "a" then
    FileContent.json (Json.obj [("system_prompt", Json.str "be brief")])
  else FileContent.missing

/-- C9 counterexample: the repository contains a second, near-duplicate
delete-chat action (`ui/widgets.py`) whose confirmed branch removes only
three of the four files: on a chat whose four files all exist it removes
the conversation file but leaves the system-prompt file in place, so it is
false that every confirmed delete-chat action removes all four files
together (equivalently, an operation other than the four-file delete
removes conversation, config and statistics files). -/
theorem c9_counterexample :
    legacy_action_delete_chat fsChatA "a" (systemPromptPath "a")
        = FileContent.json (Json.obj [("system_prompt", Json.str "be brief")])
    ∧ legacy_action_delete_chat fsChatA "a" (systemPromptPath "a")
        ≠ FileContent.missing
    ∧ legacy_action_delete_chat fsChatA "a" (convPath "a")
        = FileContent.missing := by
  refine ⟨rfl, ?_, rfl⟩
  intro h
  cases h

/-- C9 amended: the delete-chat action of
`ui/widgets/chat_list_panel.py`, once confirmed, removes all four files of
the chat together and touches no other path — in particular the four files
of every other chat (whose name, like every name listable as a chat,
contains no slash and does not end in ".config") are unchanged; the legacy
delete-chat action of `ui/widgets.py` removes only the conversation,
config and statistics files, leaving the system-prompt file as it was; and
no operation of the repository other than these two delete-chat actions
removes a conversation, per-chat config or statistics file:
`save_conversation`, `save_chat_config`, `save_statistics` and
`ensure_config_file` never make any path missing, and
`save_system_prompt` can only make the chat's system-prompt file
missing. -/
theorem c9_amended_delete_chat (fs : FS) (chat_name : String) :
    (action_delete_chat fs chat_name (convPath chat_name)
        = FileContent.missing
      ∧ action_delete_chat fs chat_name (chatConfigPath chat_name)
        = FileContent.missing
      ∧ action_delete_chat fs chat_name (statsPath chat_name)
        = FileContent.missing
      ∧ action_delete_chat fs chat_name (systemPromptPath chat_name)
        = FileContent.missing)
    ∧ (∀ p, p ≠ convPath chat_name → p ≠ chatConfigPath chat_name →
        p ≠ statsPath chat_name → p ≠ systemPromptPath chat_name →
        action_delete_chat fs chat_name p = fs p)
    ∧ (∀ other, other ≠ chat_name →
        ('/' : Char) ∉ chat_name.data → ('/' : Char) ∉ other.data →
        other.data ≠ chat_name.data ++ ".config".data →
        chat_name.data ≠ other.data ++ ".config".data →
        action_delete_chat fs chat_name (convPath other) = fs (convPath other)
        ∧ action_delete_chat fs chat_name (chatConfigPath other)
          = fs (chatConfigPath other)
        ∧ action_delete_chat fs chat_name (statsPath other)
          = fs (statsPath other)
        ∧ action_delete_chat fs chat_name (systemPromptPath other)
          = fs (systemPromptPath other))
    ∧ (legacy_action_delete_chat fs chat_name (convPath chat_name)
        = FileContent.missing
      ∧ legacy_action_delete_chat fs chat_name (chatConfigPath chat_name)
        = FileContent.missing
      ∧ legacy_action_delete_chat fs chat_name (statsPath chat_name)
        = FileContent.missing
      ∧ legacy_action_delete_chat fs chat_name (systemPromptPath chat_name)
        = fs (systemPromptPath chat_name))
    ∧ (∀ messages p, save_conversation fs chat_name messages p
        = FileContent.missing → fs p = FileContent.missing)
    ∧ (∀ config p, save_chat_config fs chat_name config p
        = FileContent.missing → fs p = FileContent.missing)
    ∧ (∀ stats p, save_statistics fs chat_name stats p
        = FileContent.missing → fs p = FileContent.missing)
    ∧ (∀ cfgPath p, ensure_config_file fs cfgPath p
        = FileContent.missing → fs p = FileContent.missing)
    ∧ (∀ prompt p, save_system_prompt fs chat_name prompt p
        = FileContent.missing →
        fs p = FileContent.missing ∨ p = systemPromptPath chat_name) := by
  refine ⟨⟨?_, ?_, ?_, ?_⟩, ?_, ?_, ⟨?_, ?_, ?_, ?_⟩, ?_, ?_, ?_, ?_, ?_⟩
  · unfold action_delete_chat
    rw [if_pos (Or.inl rfl)]
  · unfold action_delete_chat
    rw [if_pos (Or.inr (Or.inl rfl))]
  · unfold action_delete_chat
    rw [if_pos (Or.inr (Or.inr (Or.inl rfl)))]
  · unfold action_delete_chat
    rw [if_pos (Or.inr (Or.inr (Or.inr rfl)))]
  · intro p h1 h2 h3 h4
    unfold action_delete_chat
    rw [if_neg ?_]
    rintro (h | h | h | h)
    exacts [h1 h, h2 h, h3 h, h4 h]
  · intro other hne hsc hso hcfg1 hcfg2
    have e1 : convPath other ≠ convPath chat_name :=
      fun h => hne (convPath_inj other chat_name h)
    have e2 : convPath other ≠ chatConfigPath chat_name :=
      convPath_ne_chatConfigPath other chat_name hcfg1
    have e3 : convPath other ≠ statsPath chat_name :=
      convPath_ne_statsPath other chat_name hso
    have e4 : convPath other ≠ systemPromptPath chat_name :=
      convPath_ne_systemPromptPath other chat_name hso
    have f1 : chatConfigPath other ≠ convPath chat_name :=
      (convPath_ne_chatConfigPath chat_name other hcfg2).symm
    have f2 : chatConfigPath other ≠ chatConfigPath chat_name :=
      fun h => hne (chatConfigPath_inj other chat_name h)
    have f3 : chatConfigPath other ≠ statsPath chat_name :=
      chatConfigPath_ne_statsPath other chat_name hso
    have f4 : chatConfigPath other ≠ systemPromptPath chat_name :=
      chatConfigPath_ne_systemPromptPath other chat_name hso
    have g1 : statsPath other ≠ convPath chat_name :=
      (convPath_ne_statsPath chat_name other hsc).symm
    have g2 : statsPath other ≠ chatConfigPath chat_name :=
      (chatConfigPath_ne_statsPath chat_name other hsc).symm
    have g3 : statsPath other ≠ statsPath chat_name :=
      fun h => hne (statsPath_inj other chat_name h)
    have g4 : statsPath other ≠ systemPromptPath chat_name :=
      statsPath_ne_systemPromptPath other chat_name
    have i1 : systemPromptPath other ≠ convPath chat_name :=
      (convPath_ne_systemPromptPath chat_name other hsc).symm
    have i2 : systemPromptPath other ≠ chatConfigPath chat_name :=
      (chatConfigPath_ne_systemPromptPath chat_name other hsc).symm
    have i3 : systemPromptPath other ≠ statsPath chat_name :=
      (statsPath_ne_systemPromptPath chat_name other).symm
    have i4 : systemPromptPath other ≠ systemPromptPath chat_name :=
      fun h => hne (systemPromptPath_inj other chat_name h)
    refine ⟨?_, ?_, ?_, ?_⟩ <;> unfold action_delete_chat
    · rw [if_neg ?_]
      rintro (h | h | h | h)
      exacts [e1 h, e2 h, e3 h, e4 h]
    · rw [if_neg ?_]
      rintro (h | h | h | h)
      exacts [f1 h, f2 h, f3 h, f4 h]
    · rw [if_neg ?_]
      rintro (h | h | h | h)
      exacts [g1 h, g2 h, g3 h, g4 h]
    · rw [if_neg ?_]
      rintro (h | h | h | h)
      exacts [i1 h, i2 h, i3 h, i4 h]
  · unfold legacy_action_delete_chat
    rw [if_pos (Or.inl rfl)]
  · unfold legacy_action_delete_chat
    rw [if_pos (Or.inr (Or.inl rfl))]
  · unfold legacy_action_delete_chat
    rw [if_pos (Or.inr (Or.inr rfl))]
  · obtain ⟨s1, s2, s3⟩ := systemPromptPath_ne_same chat_name
    unfold legacy_action_delete_chat
    rw [if_neg ?_]
    rintro (h | h | h)
    exacts [s1 h, s2 h, s3 h]
  · intro messages p h
    unfold save_conversation at h
    by_cases hp : p = convPath chat_name
    · rw [if_pos hp] at h
      cases h
    · rw [if_neg hp] at h
      exact h
  · intro config p h
    unfold save_chat_config at h
    by_cases hp : p = chatConfigPath chat_name
    · rw [if_pos hp] at h
      cases h
    · rw [if_neg hp] at h
      exact h
  · intro stats p h
    unfold save_statistics at h
    by_cases hp : p = statsPath chat_name
    · rw [if_pos hp] at h
      cases h
    · rw [if_neg hp] at h
      exact h
  · intro cfgPath p h
    unfold ensure_config_file at h
    by_cases hp : p = cfgPath
    · rw [if_pos hp] at h
      subst hp
      cases hf : fs p with
      | missing => rfl
      | malformed => rw [hf] at h; cases h
      | json j => rw [hf] at h; cases h
    · rw [if_neg hp] at h
      exact h
  · intro prompt p h
    unfold save_system_prompt at h
    by_cases hpr : prompt = ""
    · rw [if_pos hpr] at h
      by_cases hp : p = systemPromptPath chat_name
      · exact Or.inr hp
      · rw [if_neg hp] at h
        exact Or.inl h
    · rw [if_neg hpr] at h
      by_cases hp : p = systemPromptPath chat_name
      · rw [if_pos hp] at h
        cases h
      · rw [if_neg hp] at h
        exact Or.inl h

/-- Witness for C9 (amended): the two delete actions on a concrete file
system holding all four files of chat "a" and a conversation file of
chat "b". -/
theorem c9_amended_delete_chat_witness :
    action_delete_chat fsChatA "a" (convPath "a") = FileContent.missing
    ∧ action_delete_chat fsChatA "a" (systemPromptPath "a")
        = FileContent.missing
    ∧ action_delete_chat fsChatA "a" (convPath "b") = fsChatA (convPath "b")
    ∧ legacy_action_delete_chat fsChatA "a" (systemPromptPath "a")
        = fsChatA (systemPromptPath "a") := by
  have h := c9_amended_delete_chat fsChatA "a"
  have hother := h.2.2.1 "b" (by decide) (by decide) (by decide) (by decide)
    (by decide)
  exact ⟨h.1.1, h.1.2.2.2, hother.1, h.2.2.2.1.2.2.2⟩

theorem mem_mkdirIfAbsent_self (dirs : DirState) (d : String) :
    d ∈ mkdirIfAbsent dirs d := by
  unfold mkdirIfAbsent
  by_cases h : d ∈ dirs <;> simp [h]

theorem mem_mkdirIfAbsent_of_mem (dirs : DirState) (d x : String)
    (h : x ∈ dirs) : x ∈ mkdirIfAbsent dirs d := by
  unfold mkdirIfAbsent
  by_cases hd : d ∈ dirs <;> simp [hd, h]

theorem mkdirIfAbsent_of_mem (dirs : DirState) (d : String) (h : d ∈ dirs) :
    mkdirIfAbsent dirs d = dirs := by
  unfold mkdirIfAbsent
  rw [if_pos h]

/-- C10: each path getter returns a fixed formula of the chat name — so
any two calls with the same name, whatever the directory state, return the
same path — and each ensures the `conversations` directory (plus its
`statistics` or `system_prompts` subdirectory where applicable) exists
afterwards, creating it only when absent: when everything a getter needs
already exists, the directory state is unchanged. -/
theorem c10_path_getters (dirs dirs2 : DirState) (chat_name : String) :
    ((get_conversation_path dirs chat_name).1
        = "conversations/" ++ chat_name ++ ".json"
      ∧ (get_conversation_path dirs chat_name).1
        = (get_conversation_path dirs2 chat_name).1
      ∧ "conversations" ∈ (get_conversation_path dirs chat_name).2
      ∧ ("conversations" ∈ dirs →
          (get_conversation_path dirs chat_name).2 = dirs))
    ∧ ((get_chat_config_path dirs chat_name).1
        = "conversations/" ++ chat_name ++ ".config.json"
      ∧ (get_chat_config_path dirs chat_name).1
        = (get_chat_config_path dirs2 chat_name).1
      ∧ "conversations" ∈ (get_chat_config_path dirs chat_name).2
      ∧ ("conversations" ∈ dirs →
          (get_chat_config_path dirs chat_name).2 = dirs))
    ∧ ((get_stats_path dirs chat_name).1
        = "conversations/statistics/" ++ chat_name ++ ".json"
      ∧ (get_stats_path dirs chat_name).1
        = (get_stats_path dirs2 chat_name).1
      ∧ "conversations" ∈ (get_stats_path dirs chat_name).2
      ∧ "conversations/statistics" ∈ (get_stats_path dirs chat_name).2
      ∧ ("conversations" ∈ dirs → "conversations/statistics" ∈ dirs →
          (get_stats_path dirs chat_name).2 = dirs))
    ∧ ((get_system_prompt_path dirs chat_name).1
        = "conversations/system_prompts/" ++ chat_name ++ ".json"
      ∧ (get_system_prompt_path dirs chat_name).1
        = (get_system_prompt_path dirs2 chat_name).1
      ∧ "conversations" ∈ (get_system_prompt_path dirs chat_name).2
      ∧ "conversations/system_prompts"
          ∈ (get_system_prompt_path dirs chat_name).2
      ∧ ("conversations" ∈ dirs → "conversations/system_prompts" ∈ dirs →
          (get_system_prompt_path dirs chat_name).2 = dirs)) := by
  refine ⟨⟨rfl, rfl, ?_, ?_⟩, ⟨rfl, rfl, ?_, ?_⟩,
    ⟨rfl, rfl, ?_, ?_, ?_⟩, ⟨rfl, rfl, ?_, ?_, ?_⟩⟩
  · exact mem_mkdirIfAbsent_self dirs "conversations"
  · intro h
    exact mkdirIfAbsent_of_mem dirs "conversations" h
  · exact mem_mkdirIfAbsent_self dirs "conversations"
  · intro h
    exact mkdirIfAbsent_of_mem dirs "conversations" h
  · exact mem_mkdirIfAbsent_of_mem _ _ _
      (mem_mkdirIfAbsent_self dirs "conversations")
  · exact mem_mkdirIfAbsent_self _ "conversations/statistics"
  · intro h1 h2
    show mkdirIfAbsent (mkdirIfAbsent dirs "conversations")
        "conversations/statistics" = dirs
    rw [mkdirIfAbsent_of_mem dirs "conversations" h1,
      mkdirIfAbsent_of_mem dirs "conversations/statistics" h2]
  · exact mem_mkdirIfAbsent_of_mem _ _ _
      (mem_mkdirIfAbsent_self dirs "conversations")
  · exact mem_mkdirIfAbsent_self _ "conversations/system_prompts"
  · intro h1 h2
    show mkdirIfAbsent (mkdirIfAbsent dirs "conversations")
        "conversations/system_prompts" = dirs
    rw [mkdirIfAbsent_of_mem dirs "conversations" h1,
      mkdirIfAbsent_of_mem dirs "conversations/system_prompts" h2]

/-- Witness for C10: the getters starting from an empty directory state
and from a saturated one. -/
theorem c10_path_getters_witness :
    (get_conversation_path [] "a").1 = "conversations/" ++ "a" ++ ".json"
    ∧ "conversations" ∈ (get_conversation_path [] "a").2
    ∧ "conversations/statistics" ∈ (get_stats_path [] "a").2
    ∧ "conversations/system_prompts" ∈ (get_system_prompt_path [] "a").2
    ∧ (get_conversation_path ["conversations"] "a").2 = ["conversations"]
    ∧ (get_stats_path ["conversations", "conversations/statistics"] "a").2
        = ["conversations", "conversations/statistics"] := by
  have h1 := c10_path_getters [] [] "a"
  have h2 := c10_path_getters ["conversations"] [] "a"
  have h3 := c10_path_getters ["conversations", "conversations/statistics"]
    [] "a"
  exact ⟨h1.1.1, h1.1.2.2.1, h1.2.2.1.2.2.2.1, h1.2.2.2.2.2.2.1,
    h2.1.2.2.2 (by decide), h3.2.2.1.2.2.2.2 (by decide) (by decide)⟩

theorem dictGet_filter_out {α : Type} (l : List (String × α))
    (p : String × α → Bool) (k : String) (hp : ∀ v, p (k, v) = false) :
    dictGet (l.filter p) k = none := by
  induction l with
  | nil => simp [dictGet]
  | cons kv rest ih =>
      obtain ⟨k', v'⟩ := kv
      by_cases h : k' = k
      · subst h
        simp [List.filter, hp v', ih]
      · cases hpk : p (k', v') <;> simp [List.filter, hpk, dictGet, h, ih]

theorem stripMsg_no_model (m : Msg) :
    dictGet (stripMsg m) "model" = none
    ∧ dictGet (stripMsg m) "timestamp" = none := by
  constructor
  · exact dictGet_filter_out m _ "model" (fun v => rfl)
  · exact dictGet_filter_out m _ "timestamp" (fun v => rfl)

/-- Whether the first payload entry already has role "system"
(`api_messages and api_messages[0].get("role") == "system"`). -/
def headIsSystem : List Msg → Bool
  | [] => false
  | m :: _ => isSystemRole m

theorem windowLast10_len_le (messages : List Msg) :
    (windowLast10 messages).length ≤ 10 := by
  unfold windowLast10
  by_cases h : messages.length > 10
  · rw [if_pos h]
    simp only [List.length_drop]
    omega
  · rw [if_neg h]
    omega

/-- C3: every outgoing payload is built from the conversation windowed to
its last ten messages — exactly the last ten when there are more than ten,
the whole list otherwise — with the "model" and "timestamp" keys removed
from each entry; no payload entry carries either key; when a non-empty
system prompt is set and the windowed list does not start with a system
message, exactly one system message holding the prompt is prepended to the
already-windowed list — so the windowing happens before the system prompt
is inserted and the payload can hold eleven entries — and the payload
never exceeds eleven entries. -/
theorem c3_payload_window (messages : List Msg)
    (current_system_prompt : Option String) :
    (messages.length > 10 →
        windowLast10 messages = messages.drop (messages.length - 10)
        ∧ (windowLast10 messages).length = 10)
    ∧ (messages.length ≤ 10 → windowLast10 messages = messages)
    ∧ (current_system_prompt = none →
        buildApiMessages messages current_system_prompt
          = (windowLast10 messages).map stripMsg)
    ∧ (∀ m ∈ buildApiMessages messages current_system_prompt,
        dictGet m "model" = none ∧ dictGet m "timestamp" = none)
    ∧ (∀ p, current_system_prompt = some p → p ≠ "" →
        headIsSystem ((windowLast10 messages).map stripMsg) = false →
        buildApiMessages messages current_system_prompt
          = systemMsg p :: (windowLast10 messages).map stripMsg)
    ∧ (buildApiMessages messages current_system_prompt).length ≤ 11 := by
  have hapiProp : ∀ m ∈ (windowLast10 messages).map stripMsg,
      dictGet m "model" = none ∧ dictGet m "timestamp" = none := by
    intro m hm
    obtain ⟨m0, hm0, hs⟩ := List.mem_map.mp hm
    rw [← hs]
    exact stripMsg_no_model m0
  have hlen : ((windowLast10 messages).map stripMsg).length ≤ 10 := by
    rw [List.length_map]
    exact windowLast10_len_le messages
  refine ⟨?_, ?_, ?_, ?_, ?_, ?_⟩
  · intro h
    unfold windowLast10
    rw [if_pos h]
    refine ⟨rfl, ?_⟩
    simp only [List.length_drop]
    omega
  · intro h
    unfold windowLast10
    rw [if_neg (by omega)]
  · intro h
    subst h
    rfl
  · intro m hm
    unfold buildApiMessages at hm
    cases hsp : current_system_prompt with
    | none =>
        rw [hsp] at hm
        exact hapiProp m hm
    | some p =>
        rw [hsp] at hm
        simp only at hm
        by_cases hp : p = ""
        · rw [if_pos hp] at hm
          exact hapiProp m hm
        · rw [if_neg hp] at hm
          cases hapi : (windowLast10 messages).map stripMsg with
          | nil =>
              rw [hapi] at hm
              simp at hm
              subst hm
              exact ⟨rfl, rfl⟩
          | cons m0 rest =>
              rw [hapi] at hm
              dsimp only at hm
              by_cases hsys : isSystemRole m0
              · rw [if_pos hsys] at hm
                rcases List.mem_cons.mp hm with h | h
                · subst h
                  have h0 := hapiProp m0
                    (by rw [hapi]; exact List.mem_cons_self _ _)
                  constructor
                  · rw [dictGet_dictAssign_ne m0 "content" "model"
                      (Json.str p) (by decide)]
                    exact h0.1
                  · rw [dictGet_dictAssign_ne m0 "content" "timestamp"
                      (Json.str p) (by decide)]
                    exact h0.2
                · exact hapiProp m
                    (by rw [hapi]; exact List.mem_cons_of_mem _ h)
              · rw [if_neg hsys] at hm
                rcases List.mem_cons.mp hm with h | h
                · subst h
                  exact ⟨rfl, rfl⟩
                · exact hapiProp m (by rw [hapi]; exact h)
  · intro p hsp hp hhead
    rw [hsp]
    unfold buildApiMessages
    simp only
    rw [if_neg hp]
    cases hapi : (windowLast10 messages).map stripMsg with
    | nil => rfl
    | cons m0 rest =>
        rw [hapi] at hhead
        simp only [headIsSystem] at hhead
        dsimp only
        rw [if_neg (by simp [hhead])]
  · unfold buildApiMessages
    cases hsp : current_system_prompt with
    | none => exact le_trans hlen (by omega)
    | some p =>
        simp only
        by_cases hp : p = ""
        · rw [if_pos hp]
          exact le_trans hlen (by omega)
        · rw [if_neg hp]
          cases hapi : (windowLast10 messages).map stripMsg with
          | nil => simp
          | cons m0 rest =>
              rw [hapi] at hlen
              simp only [List.length_cons] at hlen
              dsimp only
              by_cases hsys : isSystemRole m0
              · rw [if_pos hsys]
                simp only [List.length_cons]
                omega
              · rw [if_neg hsys]
                simp only [List.length_cons]
                omega

/-- A message carrying extra "model" and "timestamp" keys, as the UI
writes them. -/
def exMsg : Msg :=
  [("role", Json.str "user"), ("content", Json.str "x"),
   ("model", Json.str "m"), ("timestamp", Json.str "t")]

/-- Witness for C3: a conversation of eleven messages with a non-empty
prompt and no leading system message: the window is the last ten, the
prompt is prepended after windowing, and the payload reaches exactly
eleven entries. -/
theorem c3_payload_window_witness :
    (List.replicate 11 exMsg).length > 10
    ∧ ("be brief" : String) ≠ ""
    ∧ headIsSystem ((windowLast10 (List.replicate 11 exMsg)).map stripMsg)
        = false
    ∧ windowLast10 (List.replicate 11 exMsg)
        = (List.replicate 11 exMsg).drop ((List.replicate 11 exMsg).length - 10)
    ∧ buildApiMessages (List.replicate 11 exMsg) (some "be brief")
        = systemMsg "be brief"
          :: (windowLast10 (List.replicate 11 exMsg)).map stripMsg
    ∧ (buildApiMessages (List.replicate 11 exMsg) (some "be brief")).length
        ≤ 11
    ∧ (buildApiMessages (List.replicate 11 exMsg) (some "be brief")).length
        = 11 := by
  have h := c3_payload_window (List.replicate 11 exMsg) (some "be brief")
  refine ⟨by decide, by decide, by decide, ?_, ?_, ?_, by decide⟩
  · exact (h.1 (by decide)).1
  · exact h.2.2.2.2.1 "be brief" rfl (by decide) (by decide)
  · exact h.2.2.2.2.2

end GptCli
